import Mathlib

/-!
SwiftRT CUDA dispatch helpers.

A shallow embedding of `Modules/SwiftRTCuda/dispatchHelpers.h`: the host side
dispatch cascade `select` → `selectOut` → `flattened` / `selectRank` →
`initIndex`, together with the launch geometry helpers.

* C++ overloads get one Lean definition each, the suffix naming the operand list
  as the source's section comments do (`A` = tensorA, `AE` = tensorA Element,
  `EA` = Element tensorA, `AB` = tensorA tensorB, ...).
* A kernel launch `k<<<grid, tile, 0, stream>>>(args)` appends one `Launch`
  record to the stream, which is passed explicitly.
* `assert(c)` with a false `c` halts: the outcome is `Outcome.assertFailed`.
* `unsigned` is a natural number reduced modulo `2 ^ 32`, `int` an integer.
-/

namespace SwiftRT

/-! ## Types coming from headers outside this file -/

/-- Modelled from the spec: the element type tag of a tensor (`srtDataType`,
declared in `srttypes.h`). The eleven tags are the ones the source switches on;
`other` stands for every further enumerator, which the switches send to
`default`. -/
inductive srtDataType
  | real32F
  | real64F
  | real16F
  | real16BF
  | real32I
  | real16I
  | real16U
  | real8I
  | real8U
  | boolean
  | complex32F
  | other (code : Nat)
  deriving DecidableEq, Repr

/-- The C++ element and vector types that the dispatch instantiates. -/
inductive CType
  | float
  | double
  | half
  | half2
  | nv_bfloat16
  | nv_bfloat162
  | int32_t
  | int8_t
  | uint8_t
  | int16_t
  | uint16_t
  | char4
  | uchar4
  | short2
  | ushort2
  | bool
  | bool4
  | complexFloat
  deriving DecidableEq, Repr

/-- Modelled from the spec: the tensor descriptor (`TensorDescriptor`, declared
in `srttypes.h`): type tag, rank, shape, strides, element count and the density
flag answered by `isDense()`. -/
structure TensorDescriptor where
  type : srtDataType
  rank : Nat
  shape : List Nat
  strides : List Nat
  count : Nat
  dense : Bool
  deriving DecidableEq, Repr

/-- The `isDense()` query of the descriptor. -/
def TensorDescriptor.isDense (d : TensorDescriptor) : Bool := d.dense

/-- Status codes of the CUDA runtime that the dispatch returns. -/
inductive cudaError_t
  | cudaSuccess
  | cudaErrorNotSupported
  deriving DecidableEq, Repr

/-- The CUDA launch dimension triple; each component is an `unsigned`. -/
structure dim3 where
  x : Nat
  y : Nat
  z : Nat
  deriving DecidableEq, Repr

/-- The constructor call `dim3(x)`: the other components default to 1. -/
def dim3.of1 (x : Nat) : dim3 := ⟨x, 1, 1⟩

/-- The constructor call `dim3(x, y)`. -/
def dim3.of2 (x y : Nat) : dim3 := ⟨x, y, 1⟩

/-- The constructor call `dim3(x, y, z)`. -/
def dim3.of3 (x y z : Nat) : dim3 := ⟨x, y, z⟩

/-- Modelled from the spec: the index scheme types of `index.h`, `Flat` and
`Strided<Rank>`. -/
inductive IndexType
  | Flat
  | Strided (Rank : Nat)
  deriving DecidableEq, Repr

/-- The static member `Rank` of an index type (`Flat` addresses one dimension). -/
def IndexType.Rank : IndexType → Nat
  | .Flat => 1
  | .Strided R => R

/-- An index scheme instance `IndexT(desc)`: the index type and the descriptor it
was constructed from. -/
structure Index where
  type : IndexType
  desc : TensorDescriptor
  deriving DecidableEq, Repr

/-! ## Machine arithmetic -/

/-- Conversion to `unsigned` (32 bit). -/
def toUnsigned (n : Nat) : Nat := n % 2 ^ 32

/-- Conversion of an `unsigned` value to `int` (two's complement, 32 bit). -/
def toInt (n : Nat) : Int :=
  if n % 2 ^ 32 < 2 ^ 31 then ((n % 2 ^ 32 : Nat) : Int) else ((n % 2 ^ 32 : Nat) : Int) - 2 ^ 32

/-- Addition of `unsigned` values: wraps modulo `2 ^ 32`. -/
def uadd (a b : Nat) : Nat := (a + b) % 2 ^ 32

/-- Subtraction of `unsigned` values: wraps modulo `2 ^ 32`. -/
def usub (a b : Nat) : Nat := (a % 2 ^ 32 + (2 ^ 32 - b % 2 ^ 32)) % 2 ^ 32

/-! ## Conformance helpers (source lines 28-74) -/

/-- The standard trait `std::is_integral` on the types at hand: true for `bool`
and the integer types, false for the floating types and for class types (the
vector structs `char4`, `uchar4`, `short2`, `ushort2`, `bool4`, the half
precision types and `Complex<float>`). -/
def std_is_integral : CType → Bool
  | .int32_t => true
  | .int8_t => true
  | .uint8_t => true
  | .int16_t => true
  | .uint16_t => true
  | .bool => true
  | _ => false

/-- The standard trait `std::is_floating_point` on the types at hand: true for
`float` and `double` only. -/
def std_is_floating_point : CType → Bool
  | .float => true
  | .double => true
  | _ => false

/-- The source's `isSame<A, O>()`. -/
def isSame (A O : CType) : Bool :=
  A = O

/-- The source's `isInteger<A>()`. -/
def isInteger (A : CType) : Bool :=
  std_is_integral A

/-- The source's `isFloating<A>()`. -/
def isFloating (A : CType) : Bool :=
  std_is_floating_point A ||
    A = .half || A = .half2 ||
    A = .nv_bfloat16 || A = .nv_bfloat162

/-- The source's `isComplex<A>()`. -/
def isComplex (A : CType) : Bool :=
  A = .complexFloat

/-- The source's `isBool<A>()`. -/
def isBool (A : CType) : Bool :=
  A = .bool

/-- The source's `isNumeric<A>()`. -/
def isNumeric (A : CType) : Bool :=
  isInteger A || isFloating A || isComplex A

/-- The source's `isPacked<A>()`. -/
def isPacked (A : CType) : Bool :=
  A = .half2 || A = .nv_bfloat162 ||
  A = .char4 || A = .uchar4 ||
  A = .bool4 ||
  A = .short2 || A = .ushort2

/-! ## Operation traits (source lines 78-103) -/

/-- One instantiation `Op<T, O>` of an operation trait as the dispatch sees it:
its member types and the value of `conforms()`. -/
structure OpTrait where
  A : CType
  B : CType
  C : CType
  Out : CType
  conforms : Bool
  deriving DecidableEq, Repr

/-- A trait template `template<typename A, typename O> class Op`: its
`conforms()` for each pair of types. -/
structure OpFamily where
  conforms : CType → CType → Bool

/-- The instantiation `Op<T, O>`. The `Op1`/`Op2`/`Op3` definitions give
`typedef T A; typedef T B; typedef T C; typedef O Out;`. -/
def OpFamily.inst (Op : OpFamily) (T O : CType) : OpTrait :=
  ⟨T, T, T, O, Op.conforms T O⟩

/-! ## Kernel helpers (source lines 132-174) -/

/-- The source's `shiftDownRoundingUp(unsigned num, unsigned shift)`:
`(num + (1 << shift) - 1) >> shift` in `unsigned` arithmetic. -/
def shiftDownRoundingUp (num shift : Nat) : Nat :=
  let count := (usub (uadd num (1 <<< shift)) 1) >>> shift
  count

/-- The source's `roundUp(unsigned n, unsigned multiple)`:
`(n + multiple - 1) / multiple` in `unsigned` arithmetic. -/
def roundUp (n multiple : Nat) : Nat :=
  (usub (uadd n multiple) 1) / multiple

/-- The source's `tileSize<Rank>(oDesc)`. The template is instantiated at ranks
1, 2 and 3 only; the last branch is `Rank == 3`. -/
def tileSizeRank (Rank : Nat) (oDesc : TensorDescriptor) : dim3 :=
  if Rank = 1 then (if oDesc.count ≥ 1024 then dim3.of1 1024 else dim3.of1 32)
  else if Rank = 2 then dim3.of2 16 16
  else dim3.of3 16 8 8

/-- The source's `tileSize(int count)`. -/
def tileSize (count : Int) : dim3 :=
  if count ≥ 1024 then dim3.of1 1024 else dim3.of1 32

/-- The source's `gridSize<Rank>(oDesc, tile)`. The template is instantiated at
ranks 1, 2 and 3 only; the last branch is `Rank == 3`. For rank 1 the quotient
`(oDesc.count + tile.x - 1) / tile.x` is taken in the width of the descriptor's
count field and converted to the `unsigned` component of `dim3`; shape entries
are converted to `unsigned` when passed to `roundUp`. -/
def gridSize (Rank : Nat) (oDesc : TensorDescriptor) (tile : dim3) : dim3 :=
  if Rank = 1 then dim3.of1 (toUnsigned ((oDesc.count + tile.x - 1) / tile.x))
  else if Rank = 2 then
    dim3.of2 (roundUp (toUnsigned (oDesc.shape.getD 0 0)) tile.y)
             (roundUp (toUnsigned (oDesc.shape.getD 1 0)) tile.x)
  else
    dim3.of3 (roundUp (toUnsigned (oDesc.shape.getD 0 0)) tile.z)
             (roundUp (toUnsigned (oDesc.shape.getD 1 0)) tile.y)
             (roundUp (toUnsigned (oDesc.shape.getD 2 0)) tile.x)

/-! ## Kernel launches -/

/-- The `__global__` kernels of the source (lines 182-296). -/
inductive Kernel
  | mapA
  | mapAE
  | mapEA
  | mapAScalar
  | mapAB
  | mapABC
  | mapABE
  deriving DecidableEq, Repr

/-- Device addresses are kept abstract. -/
abbrev Ptr := Nat

/-- One argument of a kernel call, in the order of the call:
a read-only tensor pointer with its index scheme, an element read through
`pElement` at the given type and passed by value, a `Scalar` passed by value,
or the output pointer with its index scheme. -/
inductive KernelArg
  | tensor (p : Ptr) (ty : CType) (index : Index)
  | element (pElement : Ptr) (ty : CType)
  | scalar (value : Int)
  | output (p : Ptr) (ty : CType) (index : Index)
  deriving DecidableEq, Repr

/-- The index scheme an argument carries, if it is a tensor or the output. -/
def KernelArg.index? : KernelArg → Option Index
  | .tensor _ _ i => some i
  | .element _ _ => none
  | .scalar _ => none
  | .output _ _ i => some i

/-- One launch `kernel<Op, ...><<<grid, tile, 0, stream>>>(args)`. -/
structure Launch where
  kernel : Kernel
  op : OpTrait
  grid : dim3
  tile : dim3
  args : List KernelArg
  deriving DecidableEq, Repr

/-- The index schemes of a launch, operands first, output last. -/
def Launch.indexes (l : Launch) : List Index := l.args.filterMap KernelArg.index?

/-- The work queued on a `cudaStream_t`, oldest launch first. -/
abbrev Stream := List Launch

/-- What a host side dispatch call does: it returns a status, leaving the
stream with the launches it queued, or it halts in a failed `assert`. -/
inductive Outcome
  | returned (status : cudaError_t) (stream : Stream)
  | assertFailed
  deriving DecidableEq, Repr

/-! ## flattened (source lines 303-490) -/

/-- The source's `flattened`, tensorA. -/
def flattenedA (Op : OpTrait)
    (pA : Ptr) (aDesc : TensorDescriptor)
    (pOut : Ptr) (oDesc : TensorDescriptor)
    (stream : Stream) (shiftCount : Nat) : Outcome :=
  if Op.conforms then
    let packedCount : Int := toInt (shiftDownRoundingUp (toUnsigned oDesc.count) shiftCount)
    let tile := tileSize packedCount
    let grid := gridSize 1 oDesc tile
    .returned .cudaSuccess (stream ++ [⟨.mapA, Op, grid, tile,
      [.tensor pA Op.A ⟨.Flat, aDesc⟩, .output pOut Op.Out ⟨.Flat, oDesc⟩]⟩])
  else
    .returned .cudaErrorNotSupported stream

/-- The source's `flattened`, tensorA Element (the element is read as `Op::B`). -/
def flattenedAE (Op : OpTrait)
    (pA : Ptr) (aDesc : TensorDescriptor)
    (pElement : Ptr)
    (pOut : Ptr) (oDesc : TensorDescriptor)
    (stream : Stream) (shiftCount : Nat) : Outcome :=
  if Op.conforms then
    let packedCount : Int := toInt (shiftDownRoundingUp (toUnsigned oDesc.count) shiftCount)
    let tile := tileSize packedCount
    let grid := gridSize 1 oDesc tile
    .returned .cudaSuccess (stream ++ [⟨.mapAE, Op, grid, tile,
      [.tensor pA Op.A ⟨.Flat, aDesc⟩, .element pElement Op.B,
       .output pOut Op.Out ⟨.Flat, oDesc⟩]⟩])
  else
    .returned .cudaErrorNotSupported stream

/-- The source's `flattened`, Element tensorA. -/
def flattenedEA (Op : OpTrait)
    (pElement : Ptr)
    (pA : Ptr) (aDesc : TensorDescriptor)
    (pOut : Ptr) (oDesc : TensorDescriptor)
    (stream : Stream) (shiftCount : Nat) : Outcome :=
  if Op.conforms then
    let packedCount : Int := toInt (shiftDownRoundingUp (toUnsigned oDesc.count) shiftCount)
    let tile := tileSize packedCount
    let grid := gridSize 1 oDesc tile
    .returned .cudaSuccess (stream ++ [⟨.mapEA, Op, grid, tile,
      [.element pElement Op.A, .tensor pA Op.A ⟨.Flat, aDesc⟩,
       .output pOut Op.Out ⟨.Flat, oDesc⟩]⟩])
  else
    .returned .cudaErrorNotSupported stream

/-- The source's `flattened`, tensorA with a `Scalar` parameter value. -/
def flattenedAScalar (Op : OpTrait)
    (pA : Ptr) (aDesc : TensorDescriptor)
    (value : Int)
    (pOut : Ptr) (oDesc : TensorDescriptor)
    (stream : Stream) (shiftCount : Nat) : Outcome :=
  if Op.conforms then
    let packedCount : Int := toInt (shiftDownRoundingUp (toUnsigned oDesc.count) shiftCount)
    let tile := tileSize packedCount
    let grid := gridSize 1 oDesc tile
    .returned .cudaSuccess (stream ++ [⟨.mapAScalar, Op, grid, tile,
      [.tensor pA Op.A ⟨.Flat, aDesc⟩, .scalar value,
       .output pOut Op.Out ⟨.Flat, oDesc⟩]⟩])
  else
    .returned .cudaErrorNotSupported stream

/-- The source's `flattened`, tensorA tensorB. -/
def flattenedAB (Op : OpTrait)
    (pA : Ptr) (aDesc : TensorDescriptor)
    (pB : Ptr) (bDesc : TensorDescriptor)
    (pOut : Ptr) (oDesc : TensorDescriptor)
    (stream : Stream) (shiftCount : Nat) : Outcome :=
  if Op.conforms then
    let packedCount : Int := toInt (shiftDownRoundingUp (toUnsigned oDesc.count) shiftCount)
    let tile := tileSize packedCount
    let grid := gridSize 1 oDesc tile
    .returned .cudaSuccess (stream ++ [⟨.mapAB, Op, grid, tile,
      [.tensor pA Op.A ⟨.Flat, aDesc⟩, .tensor pB Op.B ⟨.Flat, bDesc⟩,
       .output pOut Op.Out ⟨.Flat, oDesc⟩]⟩])
  else
    .returned .cudaErrorNotSupported stream

/-- The source's `flattened`, tensorA tensorB tensorC. -/
def flattenedABC (Op : OpTrait)
    (pA : Ptr) (aDesc : TensorDescriptor)
    (pB : Ptr) (bDesc : TensorDescriptor)
    (pC : Ptr) (cDesc : TensorDescriptor)
    (pOut : Ptr) (oDesc : TensorDescriptor)
    (stream : Stream) (shiftCount : Nat) : Outcome :=
  if Op.conforms then
    let packedCount : Int := toInt (shiftDownRoundingUp (toUnsigned oDesc.count) shiftCount)
    let tile := tileSize packedCount
    let grid := gridSize 1 oDesc tile
    .returned .cudaSuccess (stream ++ [⟨.mapABC, Op, grid, tile,
      [.tensor pA Op.A ⟨.Flat, aDesc⟩, .tensor pB Op.B ⟨.Flat, bDesc⟩,
       .tensor pC Op.C ⟨.Flat, cDesc⟩, .output pOut Op.Out ⟨.Flat, oDesc⟩]⟩])
  else
    .returned .cudaErrorNotSupported stream

/-- The source's `flattened`, tensorA tensorB Element (the element is read as
`Op::C`). -/
def flattenedABE (Op : OpTrait)
    (pA : Ptr) (aDesc : TensorDescriptor)
    (pB : Ptr) (bDesc : TensorDescriptor)
    (pElement : Ptr)
    (pOut : Ptr) (oDesc : TensorDescriptor)
    (stream : Stream) (shiftCount : Nat) : Outcome :=
  if Op.conforms then
    let packedCount : Int := toInt (shiftDownRoundingUp (toUnsigned oDesc.count) shiftCount)
    let tile := tileSize packedCount
    let grid := gridSize 1 oDesc tile
    .returned .cudaSuccess (stream ++ [⟨.mapABE, Op, grid, tile,
      [.tensor pA Op.A ⟨.Flat, aDesc⟩, .tensor pB Op.B ⟨.Flat, bDesc⟩,
       .element pElement Op.C, .output pOut Op.Out ⟨.Flat, oDesc⟩]⟩])
  else
    .returned .cudaErrorNotSupported stream

/-! ## initIndex (source lines 493-579) -/

/-- The source's `initIndex<Op, IndexA, IndexO>`, tensorA. -/
def initIndexA (Op : OpTrait) (IndexA IndexO : IndexType)
    (pA : Ptr) (aDesc : TensorDescriptor)
    (pOut : Ptr) (oDesc : TensorDescriptor)
    (stream : Stream) : Outcome :=
  let tile := tileSizeRank IndexO.Rank oDesc
  let grid := gridSize IndexO.Rank oDesc tile
  .returned .cudaSuccess (stream ++ [⟨.mapA, Op, grid, tile,
    [.tensor pA Op.A ⟨IndexA, aDesc⟩, .output pOut Op.Out ⟨IndexO, oDesc⟩]⟩])

/-- The source's `initIndex<Op, IndexA, IndexO>`, tensorA Element: it launches
`mapAScalar` with `Scalar = Op::A`. -/
def initIndexAE (Op : OpTrait) (IndexA IndexO : IndexType)
    (pA : Ptr) (aDesc : TensorDescriptor)
    (pElement : Ptr)
    (pOut : Ptr) (oDesc : TensorDescriptor)
    (stream : Stream) : Outcome :=
  let tile := tileSizeRank IndexO.Rank oDesc
  let grid := gridSize IndexO.Rank oDesc tile
  .returned .cudaSuccess (stream ++ [⟨.mapAScalar, Op, grid, tile,
    [.tensor pA Op.A ⟨IndexA, aDesc⟩, .element pElement Op.A,
     .output pOut Op.Out ⟨IndexO, oDesc⟩]⟩])

/-- The source's `initIndex<Op, IndexA, IndexO>`, Element tensorA. -/
def initIndexEA (Op : OpTrait) (IndexA IndexO : IndexType)
    (pElement : Ptr)
    (pA : Ptr) (aDesc : TensorDescriptor)
    (pOut : Ptr) (oDesc : TensorDescriptor)
    (stream : Stream) : Outcome :=
  let tile := tileSizeRank IndexO.Rank oDesc
  let grid := gridSize IndexO.Rank oDesc tile
  .returned .cudaSuccess (stream ++ [⟨.mapEA, Op, grid, tile,
    [.element pElement Op.A, .tensor pA Op.A ⟨IndexA, aDesc⟩,
     .output pOut Op.Out ⟨IndexO, oDesc⟩]⟩])

/-- The source's `initIndex<Op, IndexA, IndexB, IndexO>`, tensorA tensorB. -/
def initIndexAB (Op : OpTrait) (IndexA IndexB IndexO : IndexType)
    (pA : Ptr) (aDesc : TensorDescriptor)
    (pB : Ptr) (bDesc : TensorDescriptor)
    (pOut : Ptr) (oDesc : TensorDescriptor)
    (stream : Stream) : Outcome :=
  let tile := tileSizeRank IndexO.Rank oDesc
  let grid := gridSize IndexO.Rank oDesc tile
  let indexA : Index := ⟨IndexA, aDesc⟩
  let indexB : Index := ⟨IndexB, bDesc⟩
  .returned .cudaSuccess (stream ++ [⟨.mapAB, Op, grid, tile,
    [.tensor pA Op.A indexA, .tensor pB Op.B indexB,
     .output pOut Op.Out ⟨IndexO, oDesc⟩]⟩])

/-! ## selectRank (source lines 582-674) -/

/-- The source's `selectRank`, tensorA. -/
def selectRankA (Op : OpTrait)
    (a : Ptr) (aDesc : TensorDescriptor)
    (out : Ptr) (oDesc : TensorDescriptor)
    (stream : Stream) : Outcome :=
  if Op.conforms then
    if aDesc.rank = oDesc.rank then
      match oDesc.rank with
      | 1 => initIndexA Op (.Strided 1) (.Strided 1) a aDesc out oDesc stream
      | 2 => initIndexA Op (.Strided 2) (.Strided 2) a aDesc out oDesc stream
      | 3 => initIndexA Op (.Strided 3) (.Strided 3) a aDesc out oDesc stream
      | _ => .returned .cudaErrorNotSupported stream
    else
      .assertFailed
  else
    .returned .cudaErrorNotSupported stream

/-- The source's `selectRank`, tensorA Element. -/
def selectRankAE (Op : OpTrait)
    (a : Ptr) (aDesc : TensorDescriptor)
    (element : Ptr)
    (out : Ptr) (oDesc : TensorDescriptor)
    (stream : Stream) : Outcome :=
  if Op.conforms then
    if aDesc.rank = oDesc.rank then
      match oDesc.rank with
      | 1 => initIndexAE Op (.Strided 1) (.Strided 1) a aDesc element out oDesc stream
      | 2 => initIndexAE Op (.Strided 2) (.Strided 2) a aDesc element out oDesc stream
      | 3 => initIndexAE Op (.Strided 3) (.Strided 3) a aDesc element out oDesc stream
      | _ => .returned .cudaErrorNotSupported stream
    else
      .assertFailed
  else
    .returned .cudaErrorNotSupported stream

/-- The source's `selectRank`, Element tensorA. -/
def selectRankEA (Op : OpTrait)
    (element : Ptr)
    (a : Ptr) (aDesc : TensorDescriptor)
    (out : Ptr) (oDesc : TensorDescriptor)
    (stream : Stream) : Outcome :=
  if Op.conforms then
    if aDesc.rank = oDesc.rank then
      match oDesc.rank with
      | 1 => initIndexEA Op (.Strided 1) (.Strided 1) element a aDesc out oDesc stream
      | 2 => initIndexEA Op (.Strided 2) (.Strided 2) element a aDesc out oDesc stream
      | 3 => initIndexEA Op (.Strided 3) (.Strided 3) element a aDesc out oDesc stream
      | _ => .returned .cudaErrorNotSupported stream
    else
      .assertFailed
  else
    .returned .cudaErrorNotSupported stream

/-- The source's `selectRank`, tensorA tensorB. -/
def selectRankAB (Op : OpTrait)
    (a : Ptr) (aDesc : TensorDescriptor)
    (b : Ptr) (bDesc : TensorDescriptor)
    (out : Ptr) (oDesc : TensorDescriptor)
    (stream : Stream) : Outcome :=
  if Op.conforms then
    if aDesc.rank = bDesc.rank ∧ aDesc.rank = oDesc.rank then
      match oDesc.rank with
      | 1 => initIndexAB Op (.Strided 1) (.Strided 1) (.Strided 1) a aDesc b bDesc out oDesc stream
      | 2 => initIndexAB Op (.Strided 2) (.Strided 2) (.Strided 2) a aDesc b bDesc out oDesc stream
      | 3 => initIndexAB Op (.Strided 3) (.Strided 3) (.Strided 3) a aDesc b bDesc out oDesc stream
      | _ => .returned .cudaErrorNotSupported stream
    else
      .assertFailed
  else
    .returned .cudaErrorNotSupported stream

/-! ## selectOut (source lines 676-852)

The `shiftCount` parameter is declared by the source and not used in the
body; the shift passed to `flattened` is the literal of each case. -/

/-- The source's `selectOut<Op, A>`, tensorA. -/
def selectOutA (Op : OpFamily) (A : CType)
    (a : Ptr) (aDesc : TensorDescriptor)
    (out : Ptr) (oDesc : TensorDescriptor)
    (stream : Stream) (shiftCount : Nat) : Outcome :=
  let _ := shiftCount
  if isPacked A then
    match oDesc.type with
    | .real32F => flattenedA (Op.inst A .float) a aDesc out oDesc stream 0
    | .real16F => flattenedA (Op.inst A .half2) a aDesc out oDesc stream 1
    | .real16BF => flattenedA (Op.inst A .nv_bfloat162) a aDesc out oDesc stream 1
    | .real64F => flattenedA (Op.inst A .double) a aDesc out oDesc stream 0
    | .real32I => flattenedA (Op.inst A .int32_t) a aDesc out oDesc stream 0
    | .real8U => flattenedA (Op.inst A .uchar4) a aDesc out oDesc stream 2
    | .real8I => flattenedA (Op.inst A .char4) a aDesc out oDesc stream 2
    | .real16U => flattenedA (Op.inst A .ushort2) a aDesc out oDesc stream 1
    | .real16I => flattenedA (Op.inst A .short2) a aDesc out oDesc stream 1
    | .boolean => flattenedA (Op.inst A .bool4) a aDesc out oDesc stream 2
    | .complex32F => flattenedA (Op.inst A .complexFloat) a aDesc out oDesc stream 0
    | _ => .returned .cudaErrorNotSupported stream
  else
    match oDesc.type with
    | .real32F => selectRankA (Op.inst A .float) a aDesc out oDesc stream
    | .real16F => selectRankA (Op.inst A .half) a aDesc out oDesc stream
    | .real16BF => selectRankA (Op.inst A .nv_bfloat16) a aDesc out oDesc stream
    | .real64F => selectRankA (Op.inst A .double) a aDesc out oDesc stream
    | .real32I => selectRankA (Op.inst A .int32_t) a aDesc out oDesc stream
    | .real8I => selectRankA (Op.inst A .int8_t) a aDesc out oDesc stream
    | .real8U => selectRankA (Op.inst A .uint8_t) a aDesc out oDesc stream
    | .real16I => selectRankA (Op.inst A .int16_t) a aDesc out oDesc stream
    | .real16U => selectRankA (Op.inst A .uint16_t) a aDesc out oDesc stream
    | .boolean => selectRankA (Op.inst A .bool) a aDesc out oDesc stream
    | .complex32F => selectRankA (Op.inst A .complexFloat) a aDesc out oDesc stream
    | _ => .returned .cudaErrorNotSupported stream

/-- The source's `selectOut<Op, A>`, tensorA Element. -/
def selectOutAE (Op : OpFamily) (A : CType)
    (a : Ptr) (aDesc : TensorDescriptor)
    (element : Ptr)
    (out : Ptr) (oDesc : TensorDescriptor)
    (stream : Stream) (shiftCount : Nat) : Outcome :=
  let _ := shiftCount
  if isPacked A then
    match oDesc.type with
    | .real32F => flattenedAE (Op.inst A .float) a aDesc element out oDesc stream 0
    | .real16F => flattenedAE (Op.inst A .half2) a aDesc element out oDesc stream 1
    | .real16BF => flattenedAE (Op.inst A .nv_bfloat162) a aDesc element out oDesc stream 1
    | .real64F => flattenedAE (Op.inst A .double) a aDesc element out oDesc stream 0
    | .real32I => flattenedAE (Op.inst A .int32_t) a aDesc element out oDesc stream 0
    | .real8U => flattenedAE (Op.inst A .uchar4) a aDesc element out oDesc stream 2
    | .real8I => flattenedAE (Op.inst A .char4) a aDesc element out oDesc stream 2
    | .real16U => flattenedAE (Op.inst A .ushort2) a aDesc element out oDesc stream 1
    | .real16I => flattenedAE (Op.inst A .short2) a aDesc element out oDesc stream 1
    | .boolean => flattenedAE (Op.inst A .bool4) a aDesc element out oDesc stream 2
    | .complex32F => flattenedAE (Op.inst A .complexFloat) a aDesc element out oDesc stream 0
    | _ => .returned .cudaErrorNotSupported stream
  else
    match oDesc.type with
    | .real32F => selectRankAE (Op.inst A .float) a aDesc element out oDesc stream
    | .real16F => selectRankAE (Op.inst A .half) a aDesc element out oDesc stream
    | .real16BF => selectRankAE (Op.inst A .nv_bfloat16) a aDesc element out oDesc stream
    | .real64F => selectRankAE (Op.inst A .double) a aDesc element out oDesc stream
    | .real32I => selectRankAE (Op.inst A .int32_t) a aDesc element out oDesc stream
    | .real8I => selectRankAE (Op.inst A .int8_t) a aDesc element out oDesc stream
    | .real8U => selectRankAE (Op.inst A .uint8_t) a aDesc element out oDesc stream
    | .real16I => selectRankAE (Op.inst A .int16_t) a aDesc element out oDesc stream
    | .real16U => selectRankAE (Op.inst A .uint16_t) a aDesc element out oDesc stream
    | .boolean => selectRankAE (Op.inst A .bool) a aDesc element out oDesc stream
    | .complex32F => selectRankAE (Op.inst A .complexFloat) a aDesc element out oDesc stream
    | _ => .returned .cudaErrorNotSupported stream

/-- The source's `selectOut<Op, A>`, Element tensorA. -/
def selectOutEA (Op : OpFamily) (A : CType)
    (element : Ptr)
    (a : Ptr) (aDesc : TensorDescriptor)
    (out : Ptr) (oDesc : TensorDescriptor)
    (stream : Stream) (shiftCount : Nat) : Outcome :=
  let _ := shiftCount
  if isPacked A then
    match oDesc.type with
    | .real32F => flattenedEA (Op.inst A .float) element a aDesc out oDesc stream 0
    | .real16F => flattenedEA (Op.inst A .half2) element a aDesc out oDesc stream 1
    | .real16BF => flattenedEA (Op.inst A .nv_bfloat162) element a aDesc out oDesc stream 1
    | .real64F => flattenedEA (Op.inst A .double) element a aDesc out oDesc stream 0
    | .real32I => flattenedEA (Op.inst A .int32_t) element a aDesc out oDesc stream 0
    | .real8U => flattenedEA (Op.inst A .uchar4) element a aDesc out oDesc stream 2
    | .real8I => flattenedEA (Op.inst A .char4) element a aDesc out oDesc stream 2
    | .real16U => flattenedEA (Op.inst A .ushort2) element a aDesc out oDesc stream 1
    | .real16I => flattenedEA (Op.inst A .short2) element a aDesc out oDesc stream 1
    | .boolean => flattenedEA (Op.inst A .bool4) element a aDesc out oDesc stream 2
    | .complex32F => flattenedEA (Op.inst A .complexFloat) element a aDesc out oDesc stream 0
    | _ => .returned .cudaErrorNotSupported stream
  else
    match oDesc.type with
    | .real32F => selectRankEA (Op.inst A .float) element a aDesc out oDesc stream
    | .real16F => selectRankEA (Op.inst A .half) element a aDesc out oDesc stream
    | .real16BF => selectRankEA (Op.inst A .nv_bfloat16) element a aDesc out oDesc stream
    | .real64F => selectRankEA (Op.inst A .double) element a aDesc out oDesc stream
    | .real32I => selectRankEA (Op.inst A .int32_t) element a aDesc out oDesc stream
    | .real8I => selectRankEA (Op.inst A .int8_t) element a aDesc out oDesc stream
    | .real8U => selectRankEA (Op.inst A .uint8_t) element a aDesc out oDesc stream
    | .real16I => selectRankEA (Op.inst A .int16_t) element a aDesc out oDesc stream
    | .real16U => selectRankEA (Op.inst A .uint16_t) element a aDesc out oDesc stream
    | .boolean => selectRankEA (Op.inst A .bool) element a aDesc out oDesc stream
    | .complex32F => selectRankEA (Op.inst A .complexFloat) element a aDesc out oDesc stream
    | _ => .returned .cudaErrorNotSupported stream

/-- The source's `selectOut<Op, A>`, tensorA tensorB. -/
def selectOutAB (Op : OpFamily) (A : CType)
    (a : Ptr) (aDesc : TensorDescriptor)
    (b : Ptr) (bDesc : TensorDescriptor)
    (out : Ptr) (oDesc : TensorDescriptor)
    (stream : Stream) (shiftCount : Nat) : Outcome :=
  let _ := shiftCount
  if isPacked A then
    match oDesc.type with
    | .real32F => flattenedAB (Op.inst A .float) a aDesc b bDesc out oDesc stream 0
    | .real16F => flattenedAB (Op.inst A .half2) a aDesc b bDesc out oDesc stream 1
    | .real16BF => flattenedAB (Op.inst A .nv_bfloat162) a aDesc b bDesc out oDesc stream 1
    | .real64F => flattenedAB (Op.inst A .double) a aDesc b bDesc out oDesc stream 0
    | .real32I => flattenedAB (Op.inst A .int32_t) a aDesc b bDesc out oDesc stream 0
    | .real8U => flattenedAB (Op.inst A .uchar4) a aDesc b bDesc out oDesc stream 2
    | .real8I => flattenedAB (Op.inst A .char4) a aDesc b bDesc out oDesc stream 2
    | .real16U => flattenedAB (Op.inst A .ushort2) a aDesc b bDesc out oDesc stream 1
    | .real16I => flattenedAB (Op.inst A .short2) a aDesc b bDesc out oDesc stream 1
    | .boolean => flattenedAB (Op.inst A .bool4) a aDesc b bDesc out oDesc stream 2
    | .complex32F => flattenedAB (Op.inst A .complexFloat) a aDesc b bDesc out oDesc stream 0
    | _ => .returned .cudaErrorNotSupported stream
  else
    match oDesc.type with
    | .real32F => selectRankAB (Op.inst A .float) a aDesc b bDesc out oDesc stream
    | .real16F => selectRankAB (Op.inst A .half) a aDesc b bDesc out oDesc stream
    | .real16BF => selectRankAB (Op.inst A .nv_bfloat16) a aDesc b bDesc out oDesc stream
    | .real64F => selectRankAB (Op.inst A .double) a aDesc b bDesc out oDesc stream
    | .real32I => selectRankAB (Op.inst A .int32_t) a aDesc b bDesc out oDesc stream
    | .real8I => selectRankAB (Op.inst A .int8_t) a aDesc b bDesc out oDesc stream
    | .real8U => selectRankAB (Op.inst A .uint8_t) a aDesc b bDesc out oDesc stream
    | .real16I => selectRankAB (Op.inst A .int16_t) a aDesc b bDesc out oDesc stream
    | .real16U => selectRankAB (Op.inst A .uint16_t) a aDesc b bDesc out oDesc stream
    | .boolean => selectRankAB (Op.inst A .bool) a aDesc b bDesc out oDesc stream
    | .complex32F => selectRankAB (Op.inst A .complexFloat) a aDesc b bDesc out oDesc stream
    | _ => .returned .cudaErrorNotSupported stream

/-! ## select (source lines 854-1025) -/

/-- The source's `select<Op>`, tensorA. -/
def selectA (Op : OpFamily)
    (a : Ptr) (aDesc : TensorDescriptor)
    (out : Ptr) (oDesc : TensorDescriptor)
    (stream : Stream) : Outcome :=
  if aDesc.isDense && oDesc.isDense then
    match aDesc.type with
    | .real32F => selectOutA Op .float a aDesc out oDesc stream 0
    | .real16F => selectOutA Op .half2 a aDesc out oDesc stream 1
    | .real16BF => selectOutA Op .nv_bfloat162 a aDesc out oDesc stream 1
    | .real64F => selectOutA Op .double a aDesc out oDesc stream 0
    | .real32I => selectOutA Op .int32_t a aDesc out oDesc stream 0
    | .real8U => selectOutA Op .uchar4 a aDesc out oDesc stream 2
    | .real8I => selectOutA Op .char4 a aDesc out oDesc stream 2
    | .real16U => selectOutA Op .ushort2 a aDesc out oDesc stream 1
    | .real16I => selectOutA Op .short2 a aDesc out oDesc stream 1
    | .boolean => selectOutA Op .bool4 a aDesc out oDesc stream 2
    | .complex32F => selectOutA Op .complexFloat a aDesc out oDesc stream 0
    | _ => .returned .cudaErrorNotSupported stream
  else
    match aDesc.type with
    | .real32F => selectOutA Op .float a aDesc out oDesc stream 0
    | .real16F => selectOutA Op .half a aDesc out oDesc stream 0
    | .real16BF => selectOutA Op .nv_bfloat16 a aDesc out oDesc stream 0
    | .real64F => selectOutA Op .double a aDesc out oDesc stream 0
    | .real32I => selectOutA Op .int32_t a aDesc out oDesc stream 0
    | .real8U => selectOutA Op .uint8_t a aDesc out oDesc stream 0
    | .real8I => selectOutA Op .int8_t a aDesc out oDesc stream 0
    | .real16U => selectOutA Op .uint16_t a aDesc out oDesc stream 0
    | .real16I => selectOutA Op .int16_t a aDesc out oDesc stream 0
    | .boolean => selectOutA Op .bool a aDesc out oDesc stream 0
    | .complex32F => selectOutA Op .complexFloat a aDesc out oDesc stream 0
    | _ => .returned .cudaErrorNotSupported stream

/-- The source's `select<Op>`, tensorA Element. Its two switches have no `boolean` case. -/
def selectAE (Op : OpFamily)
    (a : Ptr) (aDesc : TensorDescriptor)
    (element : Ptr)
    (out : Ptr) (oDesc : TensorDescriptor)
    (stream : Stream) : Outcome :=
  if aDesc.isDense && oDesc.isDense then
    match aDesc.type with
    | .real32F => selectOutAE Op .float a aDesc element out oDesc stream 0
    | .real16F => selectOutAE Op .half2 a aDesc element out oDesc stream 1
    | .real16BF => selectOutAE Op .nv_bfloat162 a aDesc element out oDesc stream 1
    | .real64F => selectOutAE Op .double a aDesc element out oDesc stream 0
    | .real32I => selectOutAE Op .int32_t a aDesc element out oDesc stream 0
    | .real8U => selectOutAE Op .uchar4 a aDesc element out oDesc stream 2
    | .real8I => selectOutAE Op .char4 a aDesc element out oDesc stream 2
    | .real16U => selectOutAE Op .ushort2 a aDesc element out oDesc stream 1
    | .real16I => selectOutAE Op .short2 a aDesc element out oDesc stream 1
    | .complex32F => selectOutAE Op .complexFloat a aDesc element out oDesc stream 0
    | _ => .returned .cudaErrorNotSupported stream
  else
    match aDesc.type with
    | .real32F => selectOutAE Op .float a aDesc element out oDesc stream 0
    | .real16F => selectOutAE Op .half a aDesc element out oDesc stream 0
    | .real16BF => selectOutAE Op .nv_bfloat16 a aDesc element out oDesc stream 0
    | .real64F => selectOutAE Op .double a aDesc element out oDesc stream 0
    | .real32I => selectOutAE Op .int32_t a aDesc element out oDesc stream 0
    | .real8U => selectOutAE Op .uint8_t a aDesc element out oDesc stream 0
    | .real8I => selectOutAE Op .int8_t a aDesc element out oDesc stream 0
    | .real16U => selectOutAE Op .uint16_t a aDesc element out oDesc stream 0
    | .real16I => selectOutAE Op .int16_t a aDesc element out oDesc stream 0
    | .complex32F => selectOutAE Op .complexFloat a aDesc element out oDesc stream 0
    | _ => .returned .cudaErrorNotSupported stream

/-- The source's `select<Op>`, Element tensorA. Its two switches have no `boolean` case. -/
def selectEA (Op : OpFamily)
    (element : Ptr)
    (a : Ptr) (aDesc : TensorDescriptor)
    (out : Ptr) (oDesc : TensorDescriptor)
    (stream : Stream) : Outcome :=
  if aDesc.isDense && oDesc.isDense then
    match aDesc.type with
    | .real32F => selectOutEA Op .float element a aDesc out oDesc stream 0
    | .real16F => selectOutEA Op .half2 element a aDesc out oDesc stream 1
    | .real16BF => selectOutEA Op .nv_bfloat162 element a aDesc out oDesc stream 1
    | .real64F => selectOutEA Op .double element a aDesc out oDesc stream 0
    | .real32I => selectOutEA Op .int32_t element a aDesc out oDesc stream 0
    | .real8U => selectOutEA Op .uchar4 element a aDesc out oDesc stream 2
    | .real8I => selectOutEA Op .char4 element a aDesc out oDesc stream 2
    | .real16U => selectOutEA Op .ushort2 element a aDesc out oDesc stream 1
    | .real16I => selectOutEA Op .short2 element a aDesc out oDesc stream 1
    | .complex32F => selectOutEA Op .complexFloat element a aDesc out oDesc stream 0
    | _ => .returned .cudaErrorNotSupported stream
  else
    match aDesc.type with
    | .real32F => selectOutEA Op .float element a aDesc out oDesc stream 0
    | .real16F => selectOutEA Op .half element a aDesc out oDesc stream 0
    | .real16BF => selectOutEA Op .nv_bfloat16 element a aDesc out oDesc stream 0
    | .real64F => selectOutEA Op .double element a aDesc out oDesc stream 0
    | .real32I => selectOutEA Op .int32_t element a aDesc out oDesc stream 0
    | .real8U => selectOutEA Op .uint8_t element a aDesc out oDesc stream 0
    | .real8I => selectOutEA Op .int8_t element a aDesc out oDesc stream 0
    | .real16U => selectOutEA Op .uint16_t element a aDesc out oDesc stream 0
    | .real16I => selectOutEA Op .int16_t element a aDesc out oDesc stream 0
    | .complex32F => selectOutEA Op .complexFloat element a aDesc out oDesc stream 0
    | _ => .returned .cudaErrorNotSupported stream

/-- The source's `select<Op>`, tensorA tensorB. -/
def selectAB (Op : OpFamily)
    (a : Ptr) (aDesc : TensorDescriptor)
    (b : Ptr) (bDesc : TensorDescriptor)
    (out : Ptr) (oDesc : TensorDescriptor)
    (stream : Stream) : Outcome :=
  if aDesc.isDense && oDesc.isDense then
    match aDesc.type with
    | .real32F => selectOutAB Op .float a aDesc b bDesc out oDesc stream 0
    | .real16F => selectOutAB Op .half2 a aDesc b bDesc out oDesc stream 1
    | .real16BF => selectOutAB Op .nv_bfloat162 a aDesc b bDesc out oDesc stream 1
    | .real64F => selectOutAB Op .double a aDesc b bDesc out oDesc stream 0
    | .real32I => selectOutAB Op .int32_t a aDesc b bDesc out oDesc stream 0
    | .real8U => selectOutAB Op .uchar4 a aDesc b bDesc out oDesc stream 2
    | .real8I => selectOutAB Op .char4 a aDesc b bDesc out oDesc stream 2
    | .real16U => selectOutAB Op .ushort2 a aDesc b bDesc out oDesc stream 1
    | .real16I => selectOutAB Op .short2 a aDesc b bDesc out oDesc stream 1
    | .boolean => selectOutAB Op .bool4 a aDesc b bDesc out oDesc stream 2
    | .complex32F => selectOutAB Op .complexFloat a aDesc b bDesc out oDesc stream 0
    | _ => .returned .cudaErrorNotSupported stream
  else
    match aDesc.type with
    | .real32F => selectOutAB Op .float a aDesc b bDesc out oDesc stream 0
    | .real16F => selectOutAB Op .half a aDesc b bDesc out oDesc stream 0
    | .real16BF => selectOutAB Op .nv_bfloat16 a aDesc b bDesc out oDesc stream 0
    | .real64F => selectOutAB Op .double a aDesc b bDesc out oDesc stream 0
    | .real32I => selectOutAB Op .int32_t a aDesc b bDesc out oDesc stream 0
    | .real8U => selectOutAB Op .uint8_t a aDesc b bDesc out oDesc stream 0
    | .real8I => selectOutAB Op .int8_t a aDesc b bDesc out oDesc stream 0
    | .real16U => selectOutAB Op .uint16_t a aDesc b bDesc out oDesc stream 0
    | .real16I => selectOutAB Op .int16_t a aDesc b bDesc out oDesc stream 0
    | .boolean => selectOutAB Op .bool a aDesc b bDesc out oDesc stream 0
    | .complex32F => selectOutAB Op .complexFloat a aDesc b bDesc out oDesc stream 0
    | _ => .returned .cudaErrorNotSupported stream

/-! ## Overload resolution

`selectRank`, `selectOut` and `select` each have the same four overloads,
told apart by their operand list; `flattened` has these four among its seven. -/

/-- The operand list of a call, up to the output pointer: tensorA; tensorA
Element; Element tensorA; tensorA tensorB. -/
inductive Operands
  | A (a : Ptr) (aDesc : TensorDescriptor)
  | AE (a : Ptr) (aDesc : TensorDescriptor) (element : Ptr)
  | EA (element : Ptr) (a : Ptr) (aDesc : TensorDescriptor)
  | AB (a : Ptr) (aDesc : TensorDescriptor) (b : Ptr) (bDesc : TensorDescriptor)
  deriving DecidableEq, Repr

/-- The descriptor of the first tensor operand. -/
def Operands.aDesc : Operands → TensorDescriptor
  | .A _ aDesc => aDesc
  | .AE _ aDesc _ => aDesc
  | .EA _ _ aDesc => aDesc
  | .AB _ aDesc _ _ => aDesc

/-- The descriptors of all tensor operands, in call order. -/
def Operands.descs : Operands → List TensorDescriptor
  | .A _ aDesc => [aDesc]
  | .AE _ aDesc _ => [aDesc]
  | .EA _ _ aDesc => [aDesc]
  | .AB _ aDesc _ bDesc => [aDesc, bDesc]

/-- Whether the operand list carries a scalar element. -/
def Operands.hasElement : Operands → Bool
  | .A _ _ => false
  | .AE _ _ _ => true
  | .EA _ _ _ => true
  | .AB _ _ _ _ => false

/-- The kernel that `flattened` launches for an operand list. -/
def Operands.flatKernel : Operands → Kernel
  | .A _ _ => .mapA
  | .AE _ _ _ => .mapAE
  | .EA _ _ _ => .mapEA
  | .AB _ _ _ _ => .mapAB

/-- The kernel that `initIndex` launches for an operand list. -/
def Operands.stridedKernel : Operands → Kernel
  | .A _ _ => .mapA
  | .AE _ _ _ => .mapAScalar
  | .EA _ _ _ => .mapEA
  | .AB _ _ _ _ => .mapAB

/-- The call `flattened<Op>(operands..., pOut, oDesc, stream, shiftCount)`. -/
def flattened (Op : OpTrait) (args : Operands) (pOut : Ptr) (oDesc : TensorDescriptor)
    (stream : Stream) (shiftCount : Nat) : Outcome :=
  match args with
  | .A a aDesc => flattenedA Op a aDesc pOut oDesc stream shiftCount
  | .AE a aDesc element => flattenedAE Op a aDesc element pOut oDesc stream shiftCount
  | .EA element a aDesc => flattenedEA Op element a aDesc pOut oDesc stream shiftCount
  | .AB a aDesc b bDesc => flattenedAB Op a aDesc b bDesc pOut oDesc stream shiftCount

/-- The call `selectRank<Op>(operands..., out, oDesc, stream)`. -/
def selectRank (Op : OpTrait) (args : Operands) (out : Ptr) (oDesc : TensorDescriptor)
    (stream : Stream) : Outcome :=
  match args with
  | .A a aDesc => selectRankA Op a aDesc out oDesc stream
  | .AE a aDesc element => selectRankAE Op a aDesc element out oDesc stream
  | .EA element a aDesc => selectRankEA Op element a aDesc out oDesc stream
  | .AB a aDesc b bDesc => selectRankAB Op a aDesc b bDesc out oDesc stream

/-- The call `selectOut<Op, A>(operands..., out, oDesc, stream, shiftCount)`. -/
def selectOut (Op : OpFamily) (A : CType) (args : Operands) (out : Ptr)
    (oDesc : TensorDescriptor) (stream : Stream) (shiftCount : Nat) : Outcome :=
  match args with
  | .A a aDesc => selectOutA Op A a aDesc out oDesc stream shiftCount
  | .AE a aDesc element => selectOutAE Op A a aDesc element out oDesc stream shiftCount
  | .EA element a aDesc => selectOutEA Op A element a aDesc out oDesc stream shiftCount
  | .AB a aDesc b bDesc => selectOutAB Op A a aDesc b bDesc out oDesc stream shiftCount

/-- The call `select<Op>(operands..., out, oDesc, stream)`. -/
def select (Op : OpFamily) (args : Operands) (out : Ptr) (oDesc : TensorDescriptor)
    (stream : Stream) : Outcome :=
  match args with
  | .A a aDesc => selectA Op a aDesc out oDesc stream
  | .AE a aDesc element => selectAE Op a aDesc element out oDesc stream
  | .EA element a aDesc => selectEA Op element a aDesc out oDesc stream
  | .AB a aDesc b bDesc => selectAB Op a aDesc b bDesc out oDesc stream

/-! ## Vocabulary of the specification -/

/-- The natural per-element representation of a type tag (specification, 4.6):
floating point of 32 and 64 bits, the two reduced-precision formats, signed
and unsigned integers of 32, 16 and 8 bits, boolean and single-precision
complex. -/
def naturalType : srtDataType → Option CType
  | .real32F => some .float
  | .real64F => some .double
  | .real16F => some .half
  | .real16BF => some .nv_bfloat16
  | .real32I => some .int32_t
  | .real16I => some .int16_t
  | .real16U => some .uint16_t
  | .real8I => some .int8_t
  | .real8U => some .uint8_t
  | .boolean => some .bool
  | .complex32F => some .complexFloat
  | .other _ => none

/-- The representation the specification prefers for a dense tensor (4.6): the
packed counterpart for the 16-bit, 8-bit and boolean tags (two 16-bit or four
8-bit elements per 32-bit word), the natural type otherwise. -/
def denseType : srtDataType → Option CType
  | .real32F => some .float
  | .real64F => some .double
  | .real16F => some .half2
  | .real16BF => some .nv_bfloat162
  | .real32I => some .int32_t
  | .real16I => some .short2
  | .real16U => some .ushort2
  | .real8I => some .char4
  | .real8U => some .uchar4
  | .boolean => some .bool4
  | .complex32F => some .complexFloat
  | .other _ => none

/-- The shift count that goes with a type tag (specification, 4.4): 0 for no
packing, 1 for 2-wide packing, 2 for 4-wide packing. -/
def shiftOf : srtDataType → Nat
  | .real16F => 1
  | .real16BF => 1
  | .real16I => 1
  | .real16U => 1
  | .real8I => 2
  | .real8U => 2
  | .boolean => 2
  | _ => 0

/-- The ceiling of `n / d` over the rationals, as a natural number. -/
def ceilDiv (n d : Nat) : Nat := ⌈(n : ℚ) / (d : ℚ)⌉₊

/-- The call returned `cudaSuccess` after queueing exactly one launch, of kernel
`k` for the trait `op`, whose index schemes are `idx` (operands first, output
last). -/
def Outcome.launchedOne (o : Outcome) (stream : Stream) (k : Kernel) (op : OpTrait)
    (idx : List Index) : Prop :=
  ∃ l : Launch, o = .returned .cudaSuccess (stream ++ [l]) ∧
    l.kernel = k ∧ l.op = op ∧ l.indexes = idx

/-- The call returned `cudaErrorNotSupported` and queued nothing. -/
def Outcome.rejected (o : Outcome) (stream : Stream) : Prop :=
  o = .returned .cudaErrorNotSupported stream

/-- The ranks of all operand descriptors and of the output descriptor agree. -/
def ranksAgree (args : Operands) (oDesc : TensorDescriptor) : Prop :=
  ∀ d ∈ args.descs, d.rank = oDesc.rank

/-- Stage 2 as a table: with a packed `A` the result type is the dense
representation of the output tag and the call goes to `flattened` with the
shift count of that tag; otherwise the result type is the natural one and the
call goes to `selectRank`. -/
def selectOutTable (Op : OpFamily) (A : CType) (args : Operands) (out : Ptr)
    (oDesc : TensorDescriptor) (stream : Stream) : Outcome :=
  if isPacked A then
    match denseType oDesc.type with
    | some O => flattened (Op.inst A O) args out oDesc stream (shiftOf oDesc.type)
    | none => .returned .cudaErrorNotSupported stream
  else
    match naturalType oDesc.type with
    | some O => selectRank (Op.inst A O) args out oDesc stream
    | none => .returned .cudaErrorNotSupported stream

/-- The operand type stage 1 resolves, as a table: none for a tag outside the
eleven and for `boolean` in the overloads with an element; otherwise the dense
representation when the density test of `select` passed, the natural one when
it did not. -/
def stage1Type (args : Operands) (dense : Bool) (t : srtDataType) : Option CType :=
  if args.hasElement && t = .boolean then none
  else if dense then denseType t else naturalType t

/-! ## Sample operations and descriptors -/

/-- An operation family whose `conforms()` is true for every pair of types. -/
def conformsAlways : OpFamily := ⟨fun _ _ => true⟩

/-- An operation family whose `conforms()` is false for every pair of types. -/
def conformsNever : OpFamily := ⟨fun _ _ => false⟩

/-- A dense row-major vector descriptor of `n` elements. -/
def denseVector (t : srtDataType) (n : Nat) : TensorDescriptor :=
  ⟨t, 1, [n], [1], n, true⟩

/-- A dense row-major matrix descriptor. -/
def denseMatrix (t : srtDataType) (rows cols : Nat) : TensorDescriptor :=
  ⟨t, 2, [rows, cols], [cols, 1], rows * cols, true⟩

/-- A dense row-major descriptor of rank 4. -/
def denseRank4 (t : srtDataType) (s0 s1 s2 s3 : Nat) : TensorDescriptor :=
  ⟨t, 4, [s0, s1, s2, s3], [s1 * s2 * s3, s2 * s3, s3, 1], s0 * s1 * s2 * s3, true⟩

/-- A vector view that takes every second element of its storage: not dense. -/
def stridedVector (t : srtDataType) (n : Nat) : TensorDescriptor :=
  ⟨t, 1, [n], [2], n, false⟩

/-- A dense row-major descriptor of rank 3. -/
def denseRank3 (t : srtDataType) (s0 s1 s2 : Nat) : TensorDescriptor :=
  ⟨t, 3, [s0, s1, s2], [s1 * s2, s2, 1], s0 * s1 * s2, true⟩

/-! ## Operation traits: the compute step (source lines 78-103) -/

/-- The trait `OpName<T, O>` that `Op1(OpName, name, conformance)` defines: the
value of `conformance` at `(T, O)` and the function `name` at these types. -/
structure Op1 (T O : Type) where
  conforms : Bool
  name : T → O

/-- The trait `OpName<T, O>` that `Op2(OpName, name, conformance)` defines. -/
structure Op2 (T O : Type) where
  conforms : Bool
  name : T → T → O

/-- The trait `OpName<T, O>` that `Op3(OpName, name, conformance)` defines. -/
structure Op3 (T O : Type) where
  conforms : Bool
  name : T → T → T → O

/-- Member type `A` of an `Op1` trait: `typedef T A`. -/
abbrev Op1.A {T O : Type} (_ : Op1 T O) : Type := T

/-- Member type `Out` of an `Op1` trait: `typedef O Out`. -/
abbrev Op1.Out {T O : Type} (_ : Op1 T O) : Type := O

/-- Member type `A` of an `Op2` trait: `typedef T A`. -/
abbrev Op2.A {T O : Type} (_ : Op2 T O) : Type := T

/-- Member type `B` of an `Op2` trait: `typedef T B`. -/
abbrev Op2.B {T O : Type} (_ : Op2 T O) : Type := T

/-- Member type `Out` of an `Op2` trait: `typedef O Out`. -/
abbrev Op2.Out {T O : Type} (_ : Op2 T O) : Type := O

/-- Member type `A` of an `Op3` trait: `typedef T A`. -/
abbrev Op3.A {T O : Type} (_ : Op3 T O) : Type := T

/-- Member type `B` of an `Op3` trait: `typedef T B`. -/
abbrev Op3.B {T O : Type} (_ : Op3 T O) : Type := T

/-- Member type `C` of an `Op3` trait: `typedef T C`. -/
abbrev Op3.C {T O : Type} (_ : Op3 T O) : Type := T

/-- Member type `Out` of an `Op3` trait: `typedef O Out`. -/
abbrev Op3.Out {T O : Type} (_ : Op3 T O) : Type := O

/-- The compute step `op(const A& a, O& out)` of an `Op1` trait,
`if constexpr (conforms()) out = name(a);`, as the content of the slot `out`
after the call. -/
def Op1.op {T O : Type} (self : Op1 T O) (a : self.A) (out : self.Out) : self.Out :=
  if self.conforms then self.name a else out

/-- The compute step `op(const A& a, const B& b, O& out)` of an `Op2` trait,
`if constexpr (conforms()) out = name(a, b);`. -/
def Op2.op {T O : Type} (self : Op2 T O) (a : self.A) (b : self.B) (out : self.Out) :
    self.Out :=
  if self.conforms then self.name a b else out

/-- The compute step `op(const A& a, const B& b, const C& c, O& out)` of an
`Op3` trait, `if constexpr (conforms()) out = name(a, b, c);`. -/
def Op3.op {T O : Type} (self : Op3 T O) (a : self.A) (b : self.B) (c : self.C)
    (out : self.Out) : self.Out :=
  if self.conforms then self.name a b c else out

/-! ## fillWord (source lines 110-124) -/

/-- The source's `fillWord<T>(pValue)`, with `sizeofT = sizeof(T)` and `v` the
value `*pValue` of the integral type `T`. `uint32_t(v)` is `v` modulo `2 ^ 32`;
the loop runs `sizeof(uint32_t) / sizeof(T)` times; the left shift of the
`uint32_t` keeps the low 32 bits. -/
def fillWord (sizeofT : Nat) (v : Int) : Nat :=
  let value : Nat := (v % 2 ^ 32).toNat
  let out : Nat := value
  (List.range (4 / sizeofT)).foldl
    (fun out _ => ((out <<< (sizeofT * 8)) % 2 ^ 32) ||| value) out

/-- Lane `k` of a 32-bit word cut into lanes of `sizeofT` bytes. -/
def wordLane (sizeofT : Nat) (w k : Nat) : Nat :=
  (w >>> (8 * sizeofT * k)) % 2 ^ (8 * sizeofT)

/-- The bit pattern of the value `v` of an integral type of `sizeofT` bytes
(two's complement for a negative `v`). -/
def bitPattern (sizeofT : Nat) (v : Int) : Nat :=
  (v % 2 ^ (8 * sizeofT)).toNat

/-! ## Index schemes -/

/-- Modelled from the spec: `Flat::Logical(blockIdx, blockDim, threadIdx)` of
`index.h`, the logical position of a thread of a one-dimensional launch (one
thread per output position). -/
def Flat.Logical (blockIdx blockDim threadIdx : dim3) : List Nat :=
  [blockIdx.x * blockDim.x + threadIdx.x]

/-- Modelled from the spec: `isInBounds(position)` of the index schemes of
`index.h` (specification, 4.2). Flat: `position < count`; Strided: each
coordinate is checked against the extent of its dimension. -/
def Index.isInBounds (i : Index) (position : List Nat) : Bool :=
  match i.type with
  | .Flat => decide (position.getD 0 0 < i.desc.count)
  | .Strided Rank =>
    (List.range Rank).all fun k => decide (position.getD k 0 < i.desc.shape.getD k 0)

/-- Modelled from the spec: `linear(position)` of the index schemes of `index.h`
(specification, 4.2). Flat: `linear(position) = position`; Strided: the dot
product of the coordinates with the strides. The kernels hold the result in an
`int`; storage offsets are taken to fit. -/
def Index.linear (i : Index) (position : List Nat) : Nat :=
  match i.type with
  | .Flat => position.getD 0 0
  | .Strided Rank =>
    ((List.range Rank).map fun k => position.getD k 0 * i.desc.strides.getD k 0).sum

/-! ## Kernels (source lines 176-296)

A kernel is modelled by what one thread does, given its logical position
`IndexO::Logical(blockIdx, blockDim, threadIdx)`. Device buffers are functions
from the element offset; `Op::op(..., out[io])` replaces the content of slot
`io` by what the compute step leaves in it. -/

/-- What one thread did: the operand offsets it read at (in operand order), the
output offsets it handed to the compute step, and the output buffer afterwards. -/
structure ThreadResult (ω : Type) where
  reads : List Nat
  writes : List Nat
  out : Nat → ω

/-- The source's `mapA`. -/
def mapA {α ω : Type} (op : α → ω → ω)
    (a : Nat → α) (indexA : Index)
    (out : Nat → ω) (indexO : Index) (position : List Nat) : ThreadResult ω :=
  if indexO.isInBounds position then
    let ia := indexA.linear position
    let io := indexO.linear position
    ⟨[ia], [io], Function.update out io (op (a ia) (out io))⟩
  else
    ⟨[], [], out⟩

/-- The source's `mapAE`. -/
def mapAE {α ω : Type} (op : α → α → ω → ω)
    (a : Nat → α) (indexA : Index)
    (element : α)
    (out : Nat → ω) (indexO : Index) (position : List Nat) : ThreadResult ω :=
  if indexO.isInBounds position then
    let ia := indexA.linear position
    let io := indexO.linear position
    ⟨[ia], [io], Function.update out io (op (a ia) element (out io))⟩
  else
    ⟨[], [], out⟩

/-- The source's `mapEA`. -/
def mapEA {α ω : Type} (op : α → α → ω → ω)
    (element : α)
    (a : Nat → α) (indexA : Index)
    (out : Nat → ω) (indexO : Index) (position : List Nat) : ThreadResult ω :=
  if indexO.isInBounds position then
    let ia := indexA.linear position
    let io := indexO.linear position
    ⟨[ia], [io], Function.update out io (op element (a ia) (out io))⟩
  else
    ⟨[], [], out⟩

/-- The source's `mapAScalar`. -/
def mapAScalar {α σ ω : Type} (op : α → σ → ω → ω)
    (a : Nat → α) (indexA : Index)
    (value : σ)
    (out : Nat → ω) (indexO : Index) (position : List Nat) : ThreadResult ω :=
  if indexO.isInBounds position then
    let ia := indexA.linear position
    let io := indexO.linear position
    ⟨[ia], [io], Function.update out io (op (a ia) value (out io))⟩
  else
    ⟨[], [], out⟩

/-- The source's `mapAB`. -/
def mapAB {α β ω : Type} (op : α → β → ω → ω)
    (a : Nat → α) (indexA : Index)
    (b : Nat → β) (indexB : Index)
    (out : Nat → ω) (indexO : Index) (position : List Nat) : ThreadResult ω :=
  if indexO.isInBounds position then
    let ia := indexA.linear position
    let ib := indexB.linear position
    let io := indexO.linear position
    ⟨[ia, ib], [io], Function.update out io (op (a ia) (b ib) (out io))⟩
  else
    ⟨[], [], out⟩

/-- The source's `mapABC`. -/
def mapABC {α β γ ω : Type} (op : α → β → γ → ω → ω)
    (a : Nat → α) (indexA : Index)
    (b : Nat → β) (indexB : Index)
    (c : Nat → γ) (indexC : Index)
    (out : Nat → ω) (indexO : Index) (position : List Nat) : ThreadResult ω :=
  if indexO.isInBounds position then
    let ia := indexA.linear position
    let ib := indexB.linear position
    let ic := indexC.linear position
    let io := indexO.linear position
    ⟨[ia, ib, ic], [io], Function.update out io (op (a ia) (b ib) (c ic) (out io))⟩
  else
    ⟨[], [], out⟩

/-- The source's `mapABE`. -/
def mapABE {α β ω : Type} (op : α → β → α → ω → ω)
    (a : Nat → α) (indexA : Index)
    (b : Nat → β) (indexB : Index)
    (element : α)
    (out : Nat → ω) (indexO : Index) (position : List Nat) : ThreadResult ω :=
  if indexO.isInBounds position then
    let ia := indexA.linear position
    let ib := indexB.linear position
    let io := indexO.linear position
    ⟨[ia, ib], [io], Function.update out io (op (a ia) (b ib) element (out io))⟩
  else
    ⟨[], [], out⟩

/-- The output buffer after the threads at the given positions have run, one
after the other; `body` is the kernel with everything but the thread's position
and the current output buffer fixed. -/
def runThreads {ω : Type} (body : (Nat → ω) → List Nat → ThreadResult ω)
    (positions : List (List Nat)) (out : Nat → ω) : Nat → ω :=
  positions.foldl (fun o p => (body o p).out) out

/-! ## Vocabulary for the launch geometry -/

/-- Component of a `dim3` by axis number: 0 is `x`, 1 is `y`, 2 is `z`. -/
def dim3.get (d : dim3) : Fin 3 → Nat
  | 0 => d.x
  | 1 => d.y
  | 2 => d.z

/-- The number of thread coordinates a launch has along an axis: the grid
component times the tile component. -/
def launchedAlong (grid tile : dim3) (axis : Fin 3) : Nat :=
  grid.get axis * tile.get axis

/-- The number of threads of a tile. -/
def dim3.threads (d : dim3) : Nat := d.x * d.y * d.z

/-! ## Vocabulary and samples for the kernels -/

/-- The thread did nothing: it read no operand, handed no output slot to the
compute step and left the output buffer `out` as it was. -/
def ThreadResult.idle {ω : Type} (r : ThreadResult ω) (out : Nat → ω) : Prop :=
  r.reads = [] ∧ r.writes = [] ∧ r.out = out

/-- The thread read the operands at `reads`, stored `value` into slot `io` and
changed no other slot of `out`. -/
def ThreadResult.storedOnly {ω : Type} (r : ThreadResult ω) (out : Nat → ω)
    (reads : List Nat) (io : Nat) (value : ω) : Prop :=
  r.reads = reads ∧ r.writes = [io] ∧ r.out io = value ∧ ∀ j, j ≠ io → r.out j = out j

/-- Negation as an `Op1` trait over the integers. -/
def negOp : Op1 Int Int := ⟨true, fun a => -a⟩

/-- Subtraction as an `Op2` trait over the integers. -/
def subOp : Op2 Int Int := ⟨true, fun a b => a - b⟩

/-- Multiply-add as an `Op3` trait over the integers. -/
def fmaOp : Op3 Int Int := ⟨true, fun a b c => a * b + c⟩

/-- The buffer holding 5, 3, 9 (and 0 beyond). -/
def sampleA : Nat → Int := fun i => [5, 3, 9].getD i 0

/-- The buffer holding 1, 2, 3 (and 0 beyond). -/
def sampleB : Nat → Int := fun i => [1, 2, 3].getD i 0

/-- An output buffer of zeros. -/
def zeroBuffer : Nat → Int := fun _ => 0

/-- Subtraction declared for a type pair that does not conform. -/
def subOpNonConforming : Op2 Int Int := ⟨false, fun a b => a - b⟩

/-! ## Vocabulary for row-major layouts -/

/-- The canonical row-major strides of a shape: each stride is the product of
the extents to its right. -/
def rowMajorStrides : List Nat → List Nat
  | [] => []
  | _ :: rest => rest.prod :: rowMajorStrides rest

/-- The row-major flat index of a coordinate in a shape (Horner form). -/
def rowMajorIndex (shape position : List Nat) : Nat :=
  (List.range shape.length).foldl (fun acc k => acc * shape.getD k 0 + position.getD k 0) 0

/-- The descriptor describes a dense tensor of the given shape with the
canonical row-major strides. -/
def TensorDescriptor.isRowMajor (d : TensorDescriptor) (shape : List Nat) : Prop :=
  d.rank = shape.length ∧ d.shape = shape ∧ d.strides = rowMajorStrides shape ∧
    d.count = shape.prod ∧ d.dense = true

/-- The six coordinates of a 2 x 3 matrix. -/
def coords2x3 : List (List Nat) := [[0, 0], [0, 1], [0, 2], [1, 0], [1, 1], [1, 2]]

/-- The six flat positions of a 2 x 3 matrix. -/
def flat6 : List (List Nat) := [[0], [1], [2], [3], [4], [5]]

/-! ## Vocabulary for the packed representations -/

/-- The number of logical elements that one value of a type holds: 4 for the
4-wide vector types, 2 for the 2-wide ones, 1 for the per-element types. -/
def packFactor : CType → Nat
  | .char4 => 4
  | .uchar4 => 4
  | .bool4 => 4
  | .half2 => 2
  | .nv_bfloat162 => 2
  | .short2 => 2
  | .ushort2 => 2
  | _ => 1

/-- The operand type the one-tensor `select` resolves: the dense representation
of the tag when `a` and `out` are both dense, the natural one otherwise. -/
def resolvedOperand (aDesc oDesc : TensorDescriptor) : Option CType :=
  if aDesc.isDense && oDesc.isDense then denseType aDesc.type else naturalType aDesc.type

/-- The result type resolved for an operand type `A`: the dense representation
of the output tag when `A` is packed, the natural one otherwise. -/
def resolvedResult (A : CType) (oDesc : TensorDescriptor) : Option CType :=
  if isPacked A then denseType oDesc.type else naturalType oDesc.type

/-- The success condition of the one-tensor `select`: both tags are supported,
the operation conforms at the resolved types, and the operand type is packed or
the rank is 1, 2 or 3. -/
def selectSucceeds (Op : OpFamily) (aDesc oDesc : TensorDescriptor) : Prop :=
  ∃ A O, resolvedOperand aDesc oDesc = some A ∧ resolvedResult A oDesc = some O ∧
    Op.conforms A O = true ∧
    (isPacked A = true ∨ oDesc.rank = 1 ∨ oDesc.rank = 2 ∨ oDesc.rank = 3)

/-- An operation family for integer operands only: `conforms()` is
`isInteger<A>() && isSame<A, O>()`. -/
def integerOnly : OpFamily := ⟨fun A O => isInteger A && isSame A O⟩

/-! ## Shared lemmas on the dispatch functions -/

theorem flattened_not_conforming (Op : OpTrait) (args : Operands) (pOut : Ptr)
    (oDesc : TensorDescriptor) (stream : Stream) (shiftCount : Nat)
    (h : Op.conforms = false) :
    flattened Op args pOut oDesc stream shiftCount = .returned .cudaErrorNotSupported stream := by
  cases args <;> simp [flattened, flattenedA, flattenedAE, flattenedEA, flattenedAB, h]

theorem flattened_conforming (Op : OpTrait) (args : Operands) (pOut : Ptr)
    (oDesc : TensorDescriptor) (stream : Stream) (shiftCount : Nat)
    (h : Op.conforms = true) :
    (flattened Op args pOut oDesc stream shiftCount).launchedOne stream args.flatKernel Op
      ((args.descs ++ [oDesc]).map (fun d => ⟨.Flat, d⟩)) := by
  cases args <;>
    simp [flattened, flattenedA, flattenedAE, flattenedEA, flattenedAB, h,
      Outcome.launchedOne, Launch.indexes, KernelArg.index?, Operands.flatKernel,
      Operands.descs]

theorem selectRank_not_conforming (Op : OpTrait) (args : Operands) (out : Ptr)
    (oDesc : TensorDescriptor) (stream : Stream) (h : Op.conforms = false) :
    selectRank Op args out oDesc stream = .returned .cudaErrorNotSupported stream := by
  cases args <;> simp [selectRank, selectRankA, selectRankAE, selectRankEA, selectRankAB, h]

theorem selectRank_rank_mismatch (Op : OpTrait) (args : Operands) (out : Ptr)
    (oDesc : TensorDescriptor) (stream : Stream) (h : Op.conforms = true)
    (hr : ¬ ranksAgree args oDesc) :
    selectRank Op args out oDesc stream = .assertFailed := by
  cases args <;>
    simp_all [selectRank, selectRankA, selectRankAE, selectRankEA, selectRankAB, ranksAgree,
      Operands.descs]
  omega

theorem selectRank_unsupported_rank (Op : OpTrait) (args : Operands) (out : Ptr)
    (oDesc : TensorDescriptor) (stream : Stream)
    (hr : ranksAgree args oDesc)
    (hk : ¬ (oDesc.rank = 1 ∨ oDesc.rank = 2 ∨ oDesc.rank = 3)) :
    selectRank Op args out oDesc stream = .returned .cudaErrorNotSupported stream := by
  have h1 : oDesc.rank ≠ 1 := fun h => hk (Or.inl h)
  have h2 : oDesc.rank ≠ 2 := fun h => hk (Or.inr (Or.inl h))
  have h3 : oDesc.rank ≠ 3 := fun h => hk (Or.inr (Or.inr h))
  cases args <;>
    simp_all [selectRank, selectRankA, selectRankAE, selectRankEA, selectRankAB, ranksAgree,
      Operands.descs]

theorem selectRank_supported_rank (Op : OpTrait) (args : Operands) (out : Ptr)
    (oDesc : TensorDescriptor) (stream : Stream) (h : Op.conforms = true)
    (hr : ranksAgree args oDesc)
    (hk : oDesc.rank = 1 ∨ oDesc.rank = 2 ∨ oDesc.rank = 3) :
    (selectRank Op args out oDesc stream).launchedOne stream args.stridedKernel Op
      ((args.descs ++ [oDesc]).map (fun d => ⟨.Strided oDesc.rank, d⟩)) := by
  rcases hk with hk | hk | hk <;> cases args <;>
    simp_all [selectRank, selectRankA, selectRankAE, selectRankEA, selectRankAB, ranksAgree,
      Operands.descs, initIndexA, initIndexAE, initIndexEA, initIndexAB,
      Outcome.launchedOne, Launch.indexes, KernelArg.index?, Operands.stridedKernel]

theorem selectOut_eq_table (Op : OpFamily) (A : CType) (args : Operands) (out : Ptr)
    (oDesc : TensorDescriptor) (stream : Stream) (shiftCount : Nat) :
    selectOut Op A args out oDesc stream shiftCount = selectOutTable Op A args out oDesc stream := by
  unfold selectOutTable
  cases args <;> cases hA : isPacked A <;> cases ht : oDesc.type <;>
    simp [selectOut, selectOutA, selectOutAE, selectOutEA, selectOutAB, hA, ht,
      denseType, naturalType, shiftOf, flattened, selectRank]

theorem selectOutA_eq_table (Op : OpFamily) (A : CType) (a : Ptr) (aDesc : TensorDescriptor)
    (out : Ptr) (oDesc : TensorDescriptor) (stream : Stream) (shiftCount : Nat) :
    selectOutA Op A a aDesc out oDesc stream shiftCount =
      selectOutTable Op A (.A a aDesc) out oDesc stream :=
  selectOut_eq_table Op A (.A a aDesc) out oDesc stream shiftCount

theorem selectOutAE_eq_table (Op : OpFamily) (A : CType) (a : Ptr) (aDesc : TensorDescriptor)
    (element : Ptr) (out : Ptr) (oDesc : TensorDescriptor) (stream : Stream) (shiftCount : Nat) :
    selectOutAE Op A a aDesc element out oDesc stream shiftCount =
      selectOutTable Op A (.AE a aDesc element) out oDesc stream :=
  selectOut_eq_table Op A (.AE a aDesc element) out oDesc stream shiftCount

theorem selectOutEA_eq_table (Op : OpFamily) (A : CType) (element : Ptr) (a : Ptr)
    (aDesc : TensorDescriptor) (out : Ptr) (oDesc : TensorDescriptor) (stream : Stream)
    (shiftCount : Nat) :
    selectOutEA Op A element a aDesc out oDesc stream shiftCount =
      selectOutTable Op A (.EA element a aDesc) out oDesc stream :=
  selectOut_eq_table Op A (.EA element a aDesc) out oDesc stream shiftCount

theorem selectOutAB_eq_table (Op : OpFamily) (A : CType) (a : Ptr) (aDesc : TensorDescriptor)
    (b : Ptr) (bDesc : TensorDescriptor) (out : Ptr) (oDesc : TensorDescriptor)
    (stream : Stream) (shiftCount : Nat) :
    selectOutAB Op A a aDesc b bDesc out oDesc stream shiftCount =
      selectOutTable Op A (.AB a aDesc b bDesc) out oDesc stream :=
  selectOut_eq_table Op A (.AB a aDesc b bDesc) out oDesc stream shiftCount

theorem select_eq_table (Op : OpFamily) (args : Operands) (out : Ptr)
    (oDesc : TensorDescriptor) (stream : Stream) :
    select Op args out oDesc stream =
      match stage1Type args (args.aDesc.isDense && oDesc.isDense) args.aDesc.type with
      | some A => selectOutTable Op A args out oDesc stream
      | none => .returned .cudaErrorNotSupported stream := by
  rcases args with ⟨a, ⟨t, r, sh, st, c, d⟩⟩ | ⟨a, ⟨t, r, sh, st, c, d⟩, e⟩ |
      ⟨e, a, ⟨t, r, sh, st, c, d⟩⟩ | ⟨a, ⟨t, r, sh, st, c, d⟩, b, bDesc⟩ <;>
    cases t <;> cases d <;> cases ho : oDesc.dense <;>
    simp [select, selectA, selectAE, selectEA, selectAB, Operands.aDesc, stage1Type,
      Operands.hasElement, TensorDescriptor.isDense, ho, denseType, naturalType,
      selectOutA_eq_table, selectOutAE_eq_table, selectOutEA_eq_table, selectOutAB_eq_table]

theorem naturalType_not_packed (t : srtDataType) (A : CType) (h : naturalType t = some A) :
    isPacked A = false := by
  cases t <;> simp [naturalType] at h <;> subst h <;> rfl

theorem selectRank_launches_strided (Op : OpTrait) (args : Operands) (out : Ptr)
    (oDesc : TensorDescriptor) (stream : Stream) (status : cudaError_t) (stream1 : Stream)
    (h : selectRank Op args out oDesc stream = .returned status stream1) :
    stream1 = stream ∨
      ∃ l : Launch, stream1 = stream ++ [l] ∧ ∀ i ∈ l.indexes, i.type = .Strided oDesc.rank := by
  cases hc : Op.conforms with
  | false =>
    rw [selectRank_not_conforming Op args out oDesc stream hc] at h
    injection h with _ h2
    exact Or.inl h2.symm
  | true =>
    by_cases hr : ranksAgree args oDesc
    · by_cases hk : oDesc.rank = 1 ∨ oDesc.rank = 2 ∨ oDesc.rank = 3
      · obtain ⟨l, hl, _, _, hidx⟩ := selectRank_supported_rank Op args out oDesc stream hc hr hk
        rw [hl] at h
        injection h with _ h2
        refine Or.inr ⟨l, h2.symm, ?_⟩
        intro i hi
        rw [hidx] at hi
        obtain ⟨d, _, hd⟩ := List.mem_map.mp hi
        rw [← hd]
      · rw [selectRank_unsupported_rank Op args out oDesc stream hr hk] at h
        injection h with _ h2
        exact Or.inl h2.symm
    · rw [selectRank_rank_mismatch Op args out oDesc stream hc hr] at h
      cases h

theorem ceilDiv_eq_div (n d : Nat) (hd : 0 < d) : ceilDiv n d = (n + d - 1) / d := by
  unfold ceilDiv
  have hdq : (0 : ℚ) < (d : ℚ) := by exact_mod_cast hd
  apply le_antisymm
  · rw [Nat.ceil_le, div_le_iff₀ hdq]
    have h1 : n ≤ (n + d - 1) / d * d := by
      have e1 := Nat.div_add_mod (n + d - 1) d
      have e2 := Nat.mod_lt (n + d - 1) hd
      rw [Nat.mul_comm] at e1
      omega
    exact_mod_cast h1
  · have h2 : (n : ℚ) ≤ (⌈(n : ℚ) / (d : ℚ)⌉₊ : ℚ) * d := by
      rw [← div_le_iff₀ hdq]
      exact Nat.le_ceil _
    have h3 : n ≤ ⌈(n : ℚ) / (d : ℚ)⌉₊ * d := by exact_mod_cast h2
    rw [Nat.div_le_iff_le_mul_add_pred hd, Nat.mul_comm]
    omega

theorem shiftDownRoundingUp_no_wrap (num shift : Nat) (h : num + 2 ^ shift - 1 < 2 ^ 32) :
    shiftDownRoundingUp num shift = (num + 2 ^ shift - 1) / 2 ^ shift := by
  have hp : 0 < 2 ^ shift := Nat.two_pow_pos shift
  unfold shiftDownRoundingUp uadd usub
  rw [Nat.shiftRight_eq_div_pow, Nat.shiftLeft_eq, Nat.one_mul]
  have key : ((num + 2 ^ shift) % 2 ^ 32 % 2 ^ 32 + (2 ^ 32 - 1 % 2 ^ 32)) % 2 ^ 32
      = num + 2 ^ shift - 1 := by
    generalize 2 ^ shift = P at *
    omega
  rw [key]

/-! ## Claims on `flattened` and `selectRank` -/

/-- C1. Every overload of `flattened` (tensor; tensor+element; element+tensor;
tensor+scalar; two tensors; three tensors; two tensors+element), for every
operation trait, descriptors and shift count: when `Op::conforms()` is false the
call returns `cudaErrorNotSupported` and the stream is left as it was (no launch,
so no write to the output buffer); when it is true the call queues exactly one
launch, of the kernel of that overload with `Flat` index schemes throughout, and
returns `cudaSuccess`. -/
theorem flattened_conformance (Op : OpTrait) (pA pB pC pElement pOut : Ptr)
    (aDesc bDesc cDesc oDesc : TensorDescriptor) (value : Int) (stream : Stream)
    (shiftCount : Nat) :
    (Op.conforms = false →
      (flattenedA Op pA aDesc pOut oDesc stream shiftCount).rejected stream ∧
      (flattenedAE Op pA aDesc pElement pOut oDesc stream shiftCount).rejected stream ∧
      (flattenedEA Op pElement pA aDesc pOut oDesc stream shiftCount).rejected stream ∧
      (flattenedAScalar Op pA aDesc value pOut oDesc stream shiftCount).rejected stream ∧
      (flattenedAB Op pA aDesc pB bDesc pOut oDesc stream shiftCount).rejected stream ∧
      (flattenedABC Op pA aDesc pB bDesc pC cDesc pOut oDesc stream shiftCount).rejected stream ∧
      (flattenedABE Op pA aDesc pB bDesc pElement pOut oDesc stream shiftCount).rejected stream) ∧
    (Op.conforms = true →
      (flattenedA Op pA aDesc pOut oDesc stream shiftCount).launchedOne stream .mapA Op
        [⟨.Flat, aDesc⟩, ⟨.Flat, oDesc⟩] ∧
      (flattenedAE Op pA aDesc pElement pOut oDesc stream shiftCount).launchedOne stream .mapAE Op
        [⟨.Flat, aDesc⟩, ⟨.Flat, oDesc⟩] ∧
      (flattenedEA Op pElement pA aDesc pOut oDesc stream shiftCount).launchedOne stream .mapEA Op
        [⟨.Flat, aDesc⟩, ⟨.Flat, oDesc⟩] ∧
      (flattenedAScalar Op pA aDesc value pOut oDesc stream shiftCount).launchedOne stream
        .mapAScalar Op [⟨.Flat, aDesc⟩, ⟨.Flat, oDesc⟩] ∧
      (flattenedAB Op pA aDesc pB bDesc pOut oDesc stream shiftCount).launchedOne stream .mapAB Op
        [⟨.Flat, aDesc⟩, ⟨.Flat, bDesc⟩, ⟨.Flat, oDesc⟩] ∧
      (flattenedABC Op pA aDesc pB bDesc pC cDesc pOut oDesc stream shiftCount).launchedOne stream
        .mapABC Op [⟨.Flat, aDesc⟩, ⟨.Flat, bDesc⟩, ⟨.Flat, cDesc⟩, ⟨.Flat, oDesc⟩] ∧
      (flattenedABE Op pA aDesc pB bDesc pElement pOut oDesc stream shiftCount).launchedOne stream
        .mapABE Op [⟨.Flat, aDesc⟩, ⟨.Flat, bDesc⟩, ⟨.Flat, oDesc⟩]) := by
  constructor
  · intro h
    simp [Outcome.rejected, flattenedA, flattenedAE, flattenedEA, flattenedAScalar, flattenedAB,
      flattenedABC, flattenedABE, h]
  · intro h
    simp [Outcome.launchedOne, Launch.indexes, KernelArg.index?, flattenedA, flattenedAE,
      flattenedEA, flattenedAScalar, flattenedAB, flattenedABC, flattenedABE, h]

/-- Witness for C1: a trait that never conforms is rejected by the one-tensor
overload, and a trait that always conforms gets its single `mapAB` launch from the
two-tensor overload with shift count 2. -/
theorem flattened_conformance_witness :
    (flattenedA (conformsNever.inst .float .float) 0 (denseVector .real32F 8) 1
        (denseVector .real32F 8) [] 0).rejected [] ∧
    (flattenedAB (conformsAlways.inst .char4 .char4) 0 (denseVector .real8I 8) 1
        (denseVector .real8I 8) 2 (denseVector .real8I 8) [] 2).launchedOne []
      .mapAB (conformsAlways.inst .char4 .char4)
      [⟨.Flat, denseVector .real8I 8⟩, ⟨.Flat, denseVector .real8I 8⟩,
        ⟨.Flat, denseVector .real8I 8⟩] :=
  ⟨((flattened_conformance (conformsNever.inst .float .float) 0 0 0 0 1
      (denseVector .real32F 8) (denseVector .real32F 8) (denseVector .real32F 8)
      (denseVector .real32F 8) 0 [] 0).1 rfl).1,
   ((flattened_conformance (conformsAlways.inst .char4 .char4) 0 1 0 0 2
      (denseVector .real8I 8) (denseVector .real8I 8) (denseVector .real8I 8)
      (denseVector .real8I 8) 0 [] 2).2 rfl).2.2.2.2.1⟩

/-- C2. For a conforming trait and descriptors whose ranks all agree, every
overload of `selectRank` queues exactly one launch whose index schemes are
`Strided<R>` for every operand and for the output, `R` being `oDesc.rank`, and
returns `cudaSuccess` when that rank is 1, 2 or 3; for every other rank
(0, 4, 5, ...) it returns `cudaErrorNotSupported` and queues nothing. -/
theorem selectRank_rank_switch (Op : OpTrait) (args : Operands) (out : Ptr)
    (oDesc : TensorDescriptor) (stream : Stream)
    (hc : Op.conforms = true) (hr : ranksAgree args oDesc) :
    ((oDesc.rank = 1 ∨ oDesc.rank = 2 ∨ oDesc.rank = 3) →
      (selectRank Op args out oDesc stream).launchedOne stream args.stridedKernel Op
        ((args.descs ++ [oDesc]).map (fun d => ⟨.Strided oDesc.rank, d⟩))) ∧
    (¬ (oDesc.rank = 1 ∨ oDesc.rank = 2 ∨ oDesc.rank = 3) →
      (selectRank Op args out oDesc stream).rejected stream) :=
  ⟨fun hk => selectRank_supported_rank Op args out oDesc stream hc hr hk,
   fun hk => selectRank_unsupported_rank Op args out oDesc stream hr hk⟩

/-- Witness for C2: two rank-2 operands into a rank-2 output launch `mapAB` over
`Strided<2>`; rank-4 descriptors are rejected. -/
theorem selectRank_rank_switch_witness :
    (selectRank (conformsAlways.inst .float .float)
        (.AB 0 (denseMatrix .real32F 37 53) 1 (denseMatrix .real32F 37 53)) 2
        (denseMatrix .real32F 37 53) []).launchedOne [] .mapAB
        (conformsAlways.inst .float .float)
        [⟨.Strided 2, denseMatrix .real32F 37 53⟩, ⟨.Strided 2, denseMatrix .real32F 37 53⟩,
          ⟨.Strided 2, denseMatrix .real32F 37 53⟩] ∧
    (selectRank (conformsAlways.inst .float .float)
        (.A 0 (denseRank4 .real32F 2 3 4 5)) 1 (denseRank4 .real32F 2 3 4 5) []).rejected [] :=
  ⟨(selectRank_rank_switch (conformsAlways.inst .float .float)
      (.AB 0 (denseMatrix .real32F 37 53) 1 (denseMatrix .real32F 37 53)) 2
      (denseMatrix .real32F 37 53) [] rfl
      (by intro d hd; simp [Operands.descs] at hd; rw [hd])).1 (Or.inr (Or.inl rfl)),
   (selectRank_rank_switch (conformsAlways.inst .float .float)
      (.A 0 (denseRank4 .real32F 2 3 4 5)) 1 (denseRank4 .real32F 2 3 4 5) [] rfl
      (by intro d hd; simp [Operands.descs] at hd; rw [hd])).2 (by decide)⟩

/-- C3, counterexample. Calls whose operand and output ranks differ (1 against
2) that return a status instead of halting: `selectRank` with a non-conforming
trait returns `cudaErrorNotSupported`, `select` with a non-conforming operation
does the same, and `select` on dense 8-bit tensors with a conforming operation
takes the `flattened` path, launches `mapA` and returns `cudaSuccess`. -/
theorem rank_mismatch_returns_status :
    (denseVector .real32F 8).rank ≠ (denseMatrix .real32F 2 4).rank ∧
    selectRank (conformsNever.inst .float .float) (.A 0 (denseVector .real32F 8)) 1
        (denseMatrix .real32F 2 4) []
      = .returned .cudaErrorNotSupported [] ∧
    select conformsNever (.A 0 (stridedVector .real32F 8)) 1 (denseMatrix .real32F 2 4) []
      = .returned .cudaErrorNotSupported [] ∧
    select conformsAlways (.A 0 (denseVector .real8I 8)) 1 (denseMatrix .real8I 2 4) []
      = .returned .cudaSuccess
          [⟨.mapA, ⟨.char4, .char4, .char4, .char4, true⟩, ⟨1, 1, 1⟩, ⟨32, 1, 1⟩,
            [.tensor 0 .char4 ⟨.Flat, denseVector .real8I 8⟩,
             .output 1 .char4 ⟨.Flat, denseMatrix .real8I 2 4⟩]⟩] := by
  refine ⟨by decide, rfl, rfl, rfl⟩

/-- C3, amended. The rank assertion guards the rank-aware path of a conforming
trait only. (1) `selectRank` with a conforming trait and ranks that are not all
equal halts in the assertion: no status, no launch. (2) `selectRank` with a
non-conforming trait returns `cudaErrorNotSupported` whatever the ranks. (3)
`select` halts in the assertion when the ranks are not all equal, stage 1 resolves
an unpacked operand type `A`, the output tag is supported with natural type `O`,
and `Op<A, O>` conforms. (4) When stage 1 resolves a packed operand type, `select`
returns a status whatever the ranks. -/
theorem rank_mismatch_asserts (args : Operands) (out : Ptr) (oDesc : TensorDescriptor)
    (stream : Stream) :
    (∀ T : OpTrait, T.conforms = true → ¬ ranksAgree args oDesc →
      selectRank T args out oDesc stream = .assertFailed) ∧
    (∀ T : OpTrait, T.conforms = false →
      selectRank T args out oDesc stream = .returned .cudaErrorNotSupported stream) ∧
    (∀ (Op : OpFamily) (A O : CType), ¬ ranksAgree args oDesc →
      stage1Type args (args.aDesc.isDense && oDesc.isDense) args.aDesc.type = some A →
      isPacked A = false → naturalType oDesc.type = some O → Op.conforms A O = true →
      select Op args out oDesc stream = .assertFailed) ∧
    (∀ (Op : OpFamily) (A : CType),
      stage1Type args (args.aDesc.isDense && oDesc.isDense) args.aDesc.type = some A →
      isPacked A = true →
      ∃ status stream1, select Op args out oDesc stream = .returned status stream1) := by
  refine ⟨fun T hc hr => selectRank_rank_mismatch T args out oDesc stream hc hr,
    fun T hc => selectRank_not_conforming T args out oDesc stream hc, ?_, ?_⟩
  · intro Op A O hr hA hp hO hc
    rw [select_eq_table, hA]
    simp only [selectOutTable, hp, hO]
    exact selectRank_rank_mismatch (Op.inst A O) args out oDesc stream hc hr
  · intro Op A hA hp
    rw [select_eq_table, hA]
    simp only [selectOutTable, hp, if_true]
    cases hO : denseType oDesc.type with
    | none => exact ⟨_, _, rfl⟩
    | some O =>
      cases hc : (Op.inst A O).conforms with
      | false =>
        exact ⟨_, _, flattened_not_conforming (Op.inst A O) args out oDesc stream _ hc⟩
      | true =>
        obtain ⟨l, hl, _⟩ := flattened_conforming (Op.inst A O) args out oDesc stream
          (shiftOf oDesc.type) hc
        exact ⟨_, _, hl⟩

/-- Witness for C3, amended: a conforming trait on a strided rank-1 operand and
a rank-2 output halts in the assertion, in `selectRank` and in `select`; a
non-conforming trait is rejected; dense 8-bit tensors return a status. -/
theorem rank_mismatch_asserts_witness :
    selectRank (conformsAlways.inst .float .float) (.A 0 (stridedVector .real32F 8)) 1
        (denseMatrix .real32F 2 4) [] = .assertFailed ∧
    selectRank (conformsNever.inst .float .float) (.A 0 (stridedVector .real32F 8)) 1
        (denseMatrix .real32F 2 4) [] = .returned .cudaErrorNotSupported [] ∧
    select conformsAlways (.A 0 (stridedVector .real32F 8)) 1 (denseMatrix .real32F 2 4) []
        = .assertFailed ∧
    (∃ status stream1,
      select conformsAlways (.A 0 (denseVector .real8I 8)) 1 (denseMatrix .real8I 2 4) []
        = .returned status stream1) :=
  ⟨(rank_mismatch_asserts (.A 0 (stridedVector .real32F 8)) 1 (denseMatrix .real32F 2 4) []).1
      (conformsAlways.inst .float .float) rfl
      (by intro h; exact absurd (h _ (List.mem_singleton.mpr rfl)) (by decide)),
   (rank_mismatch_asserts (.A 0 (stridedVector .real32F 8)) 1 (denseMatrix .real32F 2 4) []).2.1
      (conformsNever.inst .float .float) rfl,
   (rank_mismatch_asserts (.A 0 (stridedVector .real32F 8)) 1 (denseMatrix .real32F 2 4)
      []).2.2.1 conformsAlways .float .float
      (by intro h; exact absurd (h _ (List.mem_singleton.mpr rfl)) (by decide))
      rfl rfl rfl rfl,
   (rank_mismatch_asserts (.A 0 (denseVector .real8I 8)) 1 (denseMatrix .real8I 2 4) []).2.2.2
      conformsAlways .char4 rfl rfl⟩

/-! ## Claims on the type selector -/

/-- C4, the code at the failing input. The two-tensor `select` tests the density
of `aDesc` and `oDesc` only: with a dense 8-bit `a` and output and a `b` that is
not dense, it resolves the packed `char4`, takes the `flattened` path with shift
count 2 and addresses `b` through `Flat(bDesc)`. For every `bDesc`, dense or not,
the call is the `flattened` call. -/
theorem select_two_tensors_skips_bDesc_density :
    (stridedVector .real8I 8).isDense = false ∧
    select conformsAlways (.AB 0 (denseVector .real8I 8) 1 (stridedVector .real8I 8)) 2
        (denseVector .real8I 8) []
      = .returned .cudaSuccess
          [⟨.mapAB, ⟨.char4, .char4, .char4, .char4, true⟩, ⟨1, 1, 1⟩, ⟨32, 1, 1⟩,
            [.tensor 0 .char4 ⟨.Flat, denseVector .real8I 8⟩,
             .tensor 1 .char4 ⟨.Flat, stridedVector .real8I 8⟩,
             .output 2 .char4 ⟨.Flat, denseVector .real8I 8⟩]⟩] ∧
    (∀ (Op : OpFamily) (a b out : Ptr) (bDesc : TensorDescriptor) (stream : Stream),
      selectAB Op a (denseVector .real8I 8) b bDesc out (denseVector .real8I 8) stream
        = flattenedAB (Op.inst .char4 .char4) a (denseVector .real8I 8) b bDesc out
            (denseVector .real8I 8) stream 2) :=
  ⟨rfl, rfl, fun _ _ _ _ _ _ => rfl⟩

/-- C5, counterexample. Dense 32-bit float tensors and a conforming operation:
the rank-1 call launches `mapA` over `Strided<1>` index schemes (through
`selectRank` and `initIndex`, not `flattened`), and the rank-4 call returns
`cudaErrorNotSupported`, so the status for dense tensors depends on the rank. -/
theorem select_dense_float_goes_strided :
    (denseVector .real32F 8).isDense = true ∧ (denseRank4 .real32F 2 2 2 2).isDense = true ∧
    select conformsAlways (.A 0 (denseVector .real32F 8)) 1 (denseVector .real32F 8) []
      = .returned .cudaSuccess
          [⟨.mapA, ⟨.float, .float, .float, .float, true⟩, ⟨1, 1, 1⟩, ⟨32, 1, 1⟩,
            [.tensor 0 .float ⟨.Strided 1, denseVector .real32F 8⟩,
             .output 1 .float ⟨.Strided 1, denseVector .real32F 8⟩]⟩] ∧
    select conformsAlways (.A 0 (denseRank4 .real32F 2 2 2 2)) 1 (denseRank4 .real32F 2 2 2 2) []
      = .returned .cudaErrorNotSupported [] :=
  ⟨rfl, rfl, rfl, rfl⟩

/-- C5, amended. With every participating tensor dense and a conforming
operation: when stage 1 resolves a packed operand type (the 16-bit, 8-bit and
boolean tags) and the output tag is supported, `select` queues exactly one
launch, through `flattened`, with `Flat` index schemes on every operand and on the
output, and returns `cudaSuccess` whatever the rank; when stage 1 resolves an
unpacked operand type (the 32-bit, 64-bit and complex tags) the call is the
`selectRank` call, whose status depends on the rank. -/
theorem select_dense_dispatch (Op : OpFamily) (args : Operands) (out : Ptr)
    (oDesc : TensorDescriptor) (stream : Stream) (A : CType)
    (hd : ∀ d ∈ args.descs, d.isDense = true) (ho : oDesc.isDense = true)
    (hA : stage1Type args true args.aDesc.type = some A) :
    (isPacked A = true → ∀ O, denseType oDesc.type = some O → Op.conforms A O = true →
      (select Op args out oDesc stream).launchedOne stream args.flatKernel (Op.inst A O)
        ((args.descs ++ [oDesc]).map (fun d => ⟨.Flat, d⟩))) ∧
    (isPacked A = false → ∀ O, naturalType oDesc.type = some O →
      select Op args out oDesc stream = selectRank (Op.inst A O) args out oDesc stream) := by
  have ha : args.aDesc.isDense = true := by
    apply hd
    cases args <;> simp [Operands.descs, Operands.aDesc]
  constructor
  · intro hp O hO hc
    rw [select_eq_table, ha, ho, Bool.and_self, hA]
    simp only [selectOutTable, hp, if_true, hO]
    exact flattened_conforming (Op.inst A O) args out oDesc stream _ hc
  · intro hp O hO
    rw [select_eq_table, ha, ho, Bool.and_self, hA]
    simp [selectOutTable, hp, hO]

/-- Witness for C5, amended: dense 8-bit vectors of 1001 elements go through
`flattened`; dense float vectors go through `selectRank`. -/
theorem select_dense_dispatch_witness :
    (select conformsAlways (.A 0 (denseVector .real8U 1001)) 1 (denseVector .real8U 1001)
        []).launchedOne [] .mapA (conformsAlways.inst .uchar4 .uchar4)
        [⟨.Flat, denseVector .real8U 1001⟩, ⟨.Flat, denseVector .real8U 1001⟩] ∧
    select conformsAlways (.A 0 (denseVector .real32F 8)) 1 (denseVector .real32F 8) []
      = selectRank (conformsAlways.inst .float .float) (.A 0 (denseVector .real32F 8)) 1
          (denseVector .real32F 8) [] :=
  ⟨(select_dense_dispatch conformsAlways (.A 0 (denseVector .real8U 1001)) 1
      (denseVector .real8U 1001) [] .uchar4
      (by intro d hd; simp [Operands.descs] at hd; rw [hd]; rfl) rfl rfl).1 rfl .uchar4 rfl rfl,
   (select_dense_dispatch conformsAlways (.A 0 (denseVector .real32F 8)) 1
      (denseVector .real32F 8) [] .float
      (by intro d hd; simp [Operands.descs] at hd; rw [hd]; rfl) rfl rfl).2 rfl .float rfl⟩

/-- C6. One-tensor `select` with `aDesc` or `oDesc` not dense, for every pair of
supported tags: the operand type and the result type are the natural per-element
types of their tags, neither is packed, the call is the `selectRank` call for
`Op<A, Out>`, and whatever launch it queues uses `Strided` index schemes only
(never the `Flat` schemes of `flattened`). -/
theorem select_nondense_natural (Op : OpFamily) (a : Ptr) (aDesc : TensorDescriptor)
    (out : Ptr) (oDesc : TensorDescriptor) (stream : Stream) (A O : CType)
    (hd : (aDesc.isDense && oDesc.isDense) = false)
    (hA : naturalType aDesc.type = some A) (hO : naturalType oDesc.type = some O) :
    isPacked A = false ∧ isPacked O = false ∧
    selectA Op a aDesc out oDesc stream = selectRankA (Op.inst A O) a aDesc out oDesc stream ∧
    (∀ status stream1, selectA Op a aDesc out oDesc stream = .returned status stream1 →
      stream1 = stream ∨
        ∃ l : Launch, stream1 = stream ++ [l] ∧ l.op = Op.inst A O ∧
          ∀ i ∈ l.indexes, i.type = .Strided oDesc.rank) := by
  have hpA := naturalType_not_packed _ _ hA
  have hpO := naturalType_not_packed _ _ hO
  have key : selectA Op a aDesc out oDesc stream
      = selectRankA (Op.inst A O) a aDesc out oDesc stream := by
    have h := select_eq_table Op (.A a aDesc) out oDesc stream
    simp only [select, Operands.aDesc, hd, stage1Type, Operands.hasElement] at h
    rw [h]
    simp [hA, selectOutTable, hpA, hO, selectRank]
  refine ⟨hpA, hpO, key, ?_⟩
  intro status stream1 h
  rw [key] at h
  have hs : selectRank (Op.inst A O) (.A a aDesc) out oDesc stream
      = .returned status stream1 := h
  rcases selectRank_launches_strided _ _ _ _ _ _ _ hs with h1 | ⟨l, hl, hi⟩
  · exact Or.inl h1
  · refine Or.inr ⟨l, hl, ?_, hi⟩
    cases hc : (Op.inst A O).conforms with
    | false =>
      rw [selectRank_not_conforming _ _ _ _ _ hc] at hs
      injection hs with _ h2
      rw [hl] at h2
      simp at h2
    | true =>
      by_cases hr : ranksAgree (.A a aDesc) oDesc
      · by_cases hk : oDesc.rank = 1 ∨ oDesc.rank = 2 ∨ oDesc.rank = 3
        · obtain ⟨l2, hl2, _, hop, _⟩ := selectRank_supported_rank _ _ out oDesc stream hc hr hk
          rw [hl2] at hs
          injection hs with _ h2
          rw [hl] at h2
          have : l2 = l := by simpa using h2
          rw [← this]
          exact hop
        · rw [selectRank_unsupported_rank _ _ _ _ _ hr hk] at hs
          injection hs with _ h2
          rw [hl] at h2
          simp at h2
      · rw [selectRank_rank_mismatch _ _ _ _ _ hc hr] at hs
        cases hs

/-- Witness for C6: a strided 16-bit float operand into a dense boolean output
resolves `__half` and `bool`. -/
theorem select_nondense_natural_witness :
    isPacked .half = false ∧ isPacked .bool = false ∧
    selectA conformsAlways 0 (stridedVector .real16F 8) 1 (denseVector .boolean 8) []
      = selectRankA (conformsAlways.inst .half .bool) 0 (stridedVector .real16F 8) 1
          (denseVector .boolean 8) [] ∧
    (∀ status stream1,
      selectA conformsAlways 0 (stridedVector .real16F 8) 1 (denseVector .boolean 8) []
        = .returned status stream1 →
      stream1 = [] ∨
        ∃ l : Launch, stream1 = [] ++ [l] ∧ l.op = conformsAlways.inst .half .bool ∧
          ∀ i ∈ l.indexes, i.type = .Strided (denseVector .boolean 8).rank) :=
  select_nondense_natural conformsAlways 0 (stridedVector .real16F 8) 1 (denseVector .boolean 8)
    [] .half .bool rfl rfl rfl

/-- C7, counterexample. A dense 32-bit float operand with a dense boolean output
and a conforming operation: the result type of the launched instantiation is the
per-element `bool`, not the packed `bool4` that the dense representation of the
`boolean` tag would be, and the launch is the rank-aware one. -/
theorem dense_float_to_boolean_is_unpacked :
    denseType .boolean = some .bool4 ∧
    (denseVector .real32F 8).isDense = true ∧ (denseVector .boolean 8).isDense = true ∧
    select conformsAlways (.A 0 (denseVector .real32F 8)) 1 (denseVector .boolean 8) []
      = .returned .cudaSuccess
          [⟨.mapA, ⟨.float, .float, .float, .bool, true⟩, ⟨1, 1, 1⟩, ⟨32, 1, 1⟩,
            [.tensor 0 .float ⟨.Strided 1, denseVector .real32F 8⟩,
             .output 1 .bool ⟨.Strided 1, denseVector .boolean 8⟩]⟩] :=
  ⟨rfl, rfl, rfl, rfl⟩

/-- C7, amended. Stage 2 resolves the result type from `oDesc.type` and from
whether the operand type `A` resolved by stage 1 is packed, and from nothing else.
With a packed `A` the result type is the dense representation of the output tag
(`bool4` for `boolean`, the packed vector types for the 8-bit and 16-bit tags)
and the call is the `flattened` call; with an unpacked `A` (the 32-bit, 64-bit and
complex operand types, also when every tensor is dense) the result type is the
natural one (`bool` for `boolean`) and the call is the `selectRank` call. -/
theorem selectOut_result_type (Op : OpFamily) (A : CType) (args : Operands) (out : Ptr)
    (oDesc : TensorDescriptor) (stream : Stream) (shiftCount : Nat) :
    (isPacked A = true → ∀ O, denseType oDesc.type = some O →
      selectOut Op A args out oDesc stream shiftCount
        = flattened (Op.inst A O) args out oDesc stream (shiftOf oDesc.type)) ∧
    (isPacked A = false → ∀ O, naturalType oDesc.type = some O →
      selectOut Op A args out oDesc stream shiftCount
        = selectRank (Op.inst A O) args out oDesc stream) ∧
    (isPacked A = true → oDesc.type = .boolean →
      selectOut Op A args out oDesc stream shiftCount
        = flattened (Op.inst A .bool4) args out oDesc stream 2) ∧
    (isPacked A = false → oDesc.type = .boolean →
      selectOut Op A args out oDesc stream shiftCount
        = selectRank (Op.inst A .bool) args out oDesc stream) := by
  rw [selectOut_eq_table]
  refine ⟨?_, ?_, ?_, ?_⟩
  · intro hp O hO
    simp [selectOutTable, hp, hO]
  · intro hp O hO
    simp [selectOutTable, hp, hO]
  · intro hp ht
    simp [selectOutTable, hp, ht, denseType, shiftOf]
  · intro hp ht
    simp [selectOutTable, hp, ht, naturalType]

/-- Witness for C7, amended: a packed `char4` operand with a boolean output goes
to `flattened` with `bool4`; a `float` operand with a boolean output goes to
`selectRank` with `bool`. -/
theorem selectOut_result_type_witness :
    selectOut conformsAlways .char4 (.A 0 (denseVector .real8I 8)) 1 (denseVector .boolean 8) [] 2
      = flattened (conformsAlways.inst .char4 .bool4) (.A 0 (denseVector .real8I 8)) 1
          (denseVector .boolean 8) [] 2 ∧
    selectOut conformsAlways .float (.A 0 (denseVector .real32F 8)) 1 (denseVector .boolean 8) [] 0
      = selectRank (conformsAlways.inst .float .bool) (.A 0 (denseVector .real32F 8)) 1
          (denseVector .boolean 8) [] ∧
    selectOut conformsAlways .short2 (.A 0 (denseVector .real16I 8)) 1 (denseVector .real8U 8) [] 1
      = flattened (conformsAlways.inst .short2 .uchar4) (.A 0 (denseVector .real16I 8)) 1
          (denseVector .real8U 8) [] 2 ∧
    selectOut conformsAlways .double (.A 0 (denseVector .real64F 8)) 1 (denseVector .real8U 8) [] 0
      = selectRank (conformsAlways.inst .double .uint8_t) (.A 0 (denseVector .real64F 8)) 1
          (denseVector .real8U 8) [] :=
  ⟨(selectOut_result_type conformsAlways .char4 (.A 0 (denseVector .real8I 8)) 1
      (denseVector .boolean 8) [] 2).2.2.1 rfl rfl,
   (selectOut_result_type conformsAlways .float (.A 0 (denseVector .real32F 8)) 1
      (denseVector .boolean 8) [] 0).2.2.2 rfl rfl,
   (selectOut_result_type conformsAlways .short2 (.A 0 (denseVector .real16I 8)) 1
      (denseVector .real8U 8) [] 1).1 rfl .uchar4 rfl,
   (selectOut_result_type conformsAlways .double (.A 0 (denseVector .real64F 8)) 1
      (denseVector .real8U 8) [] 0).2.1 rfl .uint8_t rfl⟩

/-- C8, the code at the failing input. With the tag `boolean` on the operand,
the two element overloads of `select` return `cudaErrorNotSupported` from stage 1,
on the dense and on the strided branch, for every operation (also one that
conforms for every type pair) and queue nothing; the one-tensor and two-tensor
overloads go on to `selectOut` with `bool4` (dense) or `bool` for the same tag. -/
theorem select_element_rejects_boolean (Op : OpFamily) (a b element out : Ptr)
    (rank : Nat) (shape strides : List Nat) (count : Nat) (dense : Bool)
    (bDesc oDesc : TensorDescriptor) (stream : Stream) :
    selectAE Op a ⟨.boolean, rank, shape, strides, count, dense⟩ element out oDesc stream
      = .returned .cudaErrorNotSupported stream ∧
    selectEA Op element a ⟨.boolean, rank, shape, strides, count, dense⟩ out oDesc stream
      = .returned .cudaErrorNotSupported stream ∧
    selectA Op a ⟨.boolean, rank, shape, strides, count, dense⟩ out oDesc stream
      = selectOutA Op (if dense && oDesc.isDense then .bool4 else .bool) a
          ⟨.boolean, rank, shape, strides, count, dense⟩ out oDesc stream
          (if dense && oDesc.isDense then 2 else 0) ∧
    selectAB Op a ⟨.boolean, rank, shape, strides, count, dense⟩ b bDesc out oDesc stream
      = selectOutAB Op (if dense && oDesc.isDense then .bool4 else .bool) a
          ⟨.boolean, rank, shape, strides, count, dense⟩ b bDesc out oDesc stream
          (if dense && oDesc.isDense then 2 else 0) := by
  refine ⟨?_, ?_, ?_, ?_⟩
  · simp [selectAE]
  · simp [selectEA]
  · cases hd : dense <;> cases ho : oDesc.dense <;>
      simp [selectA, TensorDescriptor.isDense, ho]
  · cases hd : dense <;> cases ho : oDesc.dense <;>
      simp [selectAB, TensorDescriptor.isDense, ho]

/-! ## Claims on the launch geometry -/

/-- C9, counterexample. For the 32-bit count `2 ^ 32 - 1` and shift count 1 the
sum `num + (1 << shift)` wraps to 0, so `shiftDownRoundingUp` returns 0, while
the ceiling of `num / 2` is `2 ^ 31`. -/
theorem shiftDownRoundingUp_wraps :
    4294967295 < 2 ^ 32 ∧ shiftDownRoundingUp 4294967295 1 = 0 ∧
    ceilDiv 4294967295 (2 ^ 1) = 2147483648 := by
  refine ⟨by norm_num, by decide, ?_⟩
  rw [ceilDiv_eq_div _ _ (by norm_num)]
  norm_num

/-- C9, amended. For every element count `num` and every shift count in
{0, 1, 2} such that `num + 2 ^ shiftCount - 1` fits in 32 bits,
`shiftDownRoundingUp num shiftCount` is the ceiling of `num / 2 ^ shiftCount`. -/
theorem shiftDownRoundingUp_eq_ceil (num shiftCount : Nat) (_hs : shiftCount ≤ 2)
    (h : num + 2 ^ shiftCount - 1 < 2 ^ 32) :
    shiftDownRoundingUp num shiftCount = ceilDiv num (2 ^ shiftCount) := by
  rw [shiftDownRoundingUp_no_wrap num shiftCount h,
    ceilDiv_eq_div num (2 ^ shiftCount) (Nat.two_pow_pos shiftCount)]

/-- Witness for C9, amended: 1001 elements folded four to a word give 251 words. -/
theorem shiftDownRoundingUp_eq_ceil_witness :
    shiftDownRoundingUp 1001 2 = ceilDiv 1001 (2 ^ 2) ∧ shiftDownRoundingUp 1001 2 = 251 :=
  ⟨shiftDownRoundingUp_eq_ceil 1001 2 (by norm_num) (by norm_num), by decide⟩

/-- C10, the code at the failing input. For count 4096 and shift count 2 the
packed count is 1024 and the tile is 1024 wide, so `ceil(packedCount / tile)` is
1; the launch that `flattened` queues has grid 4, the ceiling of the unpacked
count 4096 over the tile, because `gridSize<1>` is given `oDesc`. -/
theorem flattened_grid_uses_unpacked_count :
    shiftDownRoundingUp 4096 2 = 1024 ∧
    tileSize 1024 = ⟨1024, 1, 1⟩ ∧
    ceilDiv 1024 1024 = 1 ∧
    flattenedA (conformsAlways.inst .char4 .char4) 0 (denseVector .real8I 4096) 1
        (denseVector .real8I 4096) [] 2
      = .returned .cudaSuccess
          [⟨.mapA, ⟨.char4, .char4, .char4, .char4, true⟩, ⟨4, 1, 1⟩, ⟨1024, 1, 1⟩,
            [.tensor 0 .char4 ⟨.Flat, denseVector .real8I 4096⟩,
             .output 1 .char4 ⟨.Flat, denseVector .real8I 4096⟩]⟩] := by
  refine ⟨by decide, by decide, ?_, by decide⟩
  rw [ceilDiv_eq_div _ _ (by norm_num)]

/-- C11, counterexample. For a count of 3,000,000,000 and shift count 0,
`shiftDownRoundingUp` returns 3,000,000,000, which is at least 1024, but the
`int` variable `packedCount` that receives it holds -1,294,967,296, so
`tileSize` chooses 32 threads and not 1024. `select` reaches this launch for a
dense 8-bit operand with a dense 32-bit float output. -/
theorem tile_choice_int_conversion :
    shiftDownRoundingUp (toUnsigned 3000000000) 0 = 3000000000 ∧
    (3000000000 : Nat) ≥ 1024 ∧
    toInt 3000000000 = -1294967296 ∧
    flattenedA (conformsAlways.inst .char4 .float) 0 (denseVector .real8I 3000000000) 1
        (denseVector .real32F 3000000000) [] 0
      = .returned .cudaSuccess
          [⟨.mapA, ⟨.char4, .char4, .char4, .float, true⟩, ⟨93750000, 1, 1⟩, ⟨32, 1, 1⟩,
            [.tensor 0 .char4 ⟨.Flat, denseVector .real8I 3000000000⟩,
             .output 1 .float ⟨.Flat, denseVector .real32F 3000000000⟩]⟩] ∧
    select conformsAlways (.A 0 (denseVector .real8I 3000000000)) 1
        (denseVector .real32F 3000000000) []
      = flattenedA (conformsAlways.inst .char4 .float) 0 (denseVector .real8I 3000000000) 1
          (denseVector .real32F 3000000000) [] 0 := by
  refine ⟨by decide, by decide, by decide, by decide, rfl⟩

/-- C11, amended. In every `flattened` launch (all seven overloads, conforming
trait) whose packed count `shiftDownRoundingUp(oDesc.count, shiftCount)` is
below `2 ^ 31`, the tile is `dim3(1024)` when the packed count is at least 1024
and `dim3(32)` otherwise. On the rank-aware path `tileSize<1>` makes the same
choice on `oDesc.count`, `tileSize<2>` is 16 x 16 and `tileSize<3>` is 16 x 8 x 8.
None of the tiles has more than 1024 threads. -/
theorem tile_choice (Op : OpTrait) (pA pB pC pElement pOut : Ptr)
    (aDesc bDesc cDesc oDesc : TensorDescriptor) (value : Int) (stream : Stream)
    (shiftCount : Nat) (hc : Op.conforms = true)
    (hlt : shiftDownRoundingUp (toUnsigned oDesc.count) shiftCount < 2 ^ 31) :
    (∀ o ∈ [flattenedA Op pA aDesc pOut oDesc stream shiftCount,
            flattenedAE Op pA aDesc pElement pOut oDesc stream shiftCount,
            flattenedEA Op pElement pA aDesc pOut oDesc stream shiftCount,
            flattenedAScalar Op pA aDesc value pOut oDesc stream shiftCount,
            flattenedAB Op pA aDesc pB bDesc pOut oDesc stream shiftCount,
            flattenedABC Op pA aDesc pB bDesc pC cDesc pOut oDesc stream shiftCount,
            flattenedABE Op pA aDesc pB bDesc pElement pOut oDesc stream shiftCount],
      ∃ l : Launch, o = .returned .cudaSuccess (stream ++ [l]) ∧
        l.tile = (if shiftDownRoundingUp (toUnsigned oDesc.count) shiftCount ≥ 1024
                  then ⟨1024, 1, 1⟩ else ⟨32, 1, 1⟩)) ∧
    tileSizeRank 1 oDesc = (if oDesc.count ≥ 1024 then ⟨1024, 1, 1⟩ else ⟨32, 1, 1⟩) ∧
    tileSizeRank 2 oDesc = ⟨16, 16, 1⟩ ∧
    tileSizeRank 3 oDesc = ⟨16, 8, 8⟩ ∧
    (∀ t ∈ [tileSize (toInt (shiftDownRoundingUp (toUnsigned oDesc.count) shiftCount)),
            tileSizeRank 1 oDesc, tileSizeRank 2 oDesc, tileSizeRank 3 oDesc],
      t.threads ≤ 1024) := by
  have htile : tileSize (toInt (shiftDownRoundingUp (toUnsigned oDesc.count) shiftCount))
      = (if shiftDownRoundingUp (toUnsigned oDesc.count) shiftCount ≥ 1024
          then ⟨1024, 1, 1⟩ else ⟨32, 1, 1⟩) := by
    generalize shiftDownRoundingUp (toUnsigned oDesc.count) shiftCount = n at hlt ⊢
    have hn : n % 2 ^ 32 = n := Nat.mod_eq_of_lt (by omega)
    have hint : toInt n = (n : Int) := by simp only [toInt, hn, hlt, if_true]
    rw [hint]
    unfold tileSize
    by_cases h : n ≥ 1024
    · have h2 : (n : Int) ≥ 1024 := by omega
      rw [if_pos h, if_pos h2]
      rfl
    · have h2 : ¬ (n : Int) ≥ 1024 := by omega
      rw [if_neg h, if_neg h2]
      rfl
  refine ⟨?_, ?_, ?_, ?_, ?_⟩
  · intro o ho
    simp only [List.mem_cons, List.mem_singleton, List.not_mem_nil, or_false] at ho
    rcases ho with h | h | h | h | h | h | h <;> subst h <;>
      simp only [flattenedA, flattenedAE, flattenedEA, flattenedAScalar, flattenedAB,
        flattenedABC, flattenedABE, hc, if_true, htile] <;>
      exact ⟨_, rfl, rfl⟩
  · simp [tileSizeRank, dim3.of1]
  · simp [tileSizeRank, dim3.of2]
  · simp [tileSizeRank, dim3.of3]
  · intro t ht
    simp only [List.mem_cons, List.mem_singleton, List.not_mem_nil, or_false] at ht
    rcases ht with h | h | h | h <;> subst h
    · unfold tileSize
      split <;> simp [dim3.of1, dim3.threads]
    · simp only [tileSizeRank, if_true]
      split <;> simp [dim3.of1, dim3.threads]
    · simp [tileSizeRank, dim3.of2, dim3.threads]
    · simp [tileSizeRank, dim3.of3, dim3.threads]

/-- Witness for C11, amended: 4096 elements folded four to a word (packed count
1024, below `2 ^ 31`) give a 1024-wide tile; the rank-3 tile has at most 1024
threads. -/
theorem tile_choice_witness :
    shiftDownRoundingUp (toUnsigned (denseVector .real8I 4096).count) 2 < 2 ^ 31 ∧
    (∃ l : Launch,
      flattenedA (conformsAlways.inst .char4 .char4) 0 (denseVector .real8I 4096) 1
          (denseVector .real8I 4096) [] 2 = .returned .cudaSuccess ([] ++ [l]) ∧
        l.tile = (if shiftDownRoundingUp (toUnsigned (denseVector .real8I 4096).count) 2 ≥ 1024
                  then ⟨1024, 1, 1⟩ else ⟨32, 1, 1⟩)) ∧
    (tileSizeRank 3 (denseVector .real8I 1001)).threads ≤ 1024 :=
  ⟨by decide,
   (tile_choice (conformsAlways.inst .char4 .char4) 0 0 0 0 1 (denseVector .real8I 4096)
      (denseVector .real8I 4096) (denseVector .real8I 4096) (denseVector .real8I 4096) 0 [] 2
      rfl (by decide)).1 _ (List.mem_cons_self _ _),
   (tile_choice (conformsAlways.inst .char4 .char4) 0 0 0 0 1 (denseVector .real8I 1001)
      (denseVector .real8I 1001) (denseVector .real8I 1001) (denseVector .real8I 1001) 0 [] 2
      rfl (by decide)).2.2.2.2 _ (by simp)⟩

/-- C12, the code at the failing input. `gridSize<3>` pairs `shape[0]` with
`tile.z` and `shape[2]` with `tile.x`, and `dim3` takes its arguments in the
order x, y, z: the grid is `(ceil(s0 / 8), ceil(s1 / 8), ceil(s2 / 16))` for the
tile `(16, 8, 8)`. For the shape 1 x 1 x 100 the launch has 16, 8 and 56 thread
coordinates along x, y and z, so no axis reaches the extent 100 of dimension 2,
and no assignment of axes to dimensions covers every shape. For the shape
8 x 9 x 10 of the specification the z axis has 8 coordinates, fewer than the
extent 10. -/
theorem gridSize_rank3_misses_positions :
    tileSizeRank 3 (denseRank3 .real32F 1 1 100) = ⟨16, 8, 8⟩ ∧
    gridSize 3 (denseRank3 .real32F 1 1 100) ⟨16, 8, 8⟩ = ⟨1, 1, 7⟩ ∧
    selectRankA (conformsAlways.inst .float .float) 0 (denseRank3 .real32F 1 1 100) 1
        (denseRank3 .real32F 1 1 100) []
      = .returned .cudaSuccess
          [⟨.mapA, ⟨.float, .float, .float, .float, true⟩, ⟨1, 1, 7⟩, ⟨16, 8, 8⟩,
            [.tensor 0 .float ⟨.Strided 3, denseRank3 .real32F 1 1 100⟩,
             .output 1 .float ⟨.Strided 3, denseRank3 .real32F 1 1 100⟩]⟩] ∧
    (∀ axis : Fin 3, launchedAlong ⟨1, 1, 7⟩ ⟨16, 8, 8⟩ axis < 100) ∧
    (¬ ∃ assign : Fin 3 → Fin 3, ∀ s0 s1 s2 : Nat, ∀ k : Fin 3,
        [s0, s1, s2].getD k 0 ≤
          launchedAlong
            (gridSize 3 (denseRank3 .real32F s0 s1 s2)
              (tileSizeRank 3 (denseRank3 .real32F s0 s1 s2)))
            (tileSizeRank 3 (denseRank3 .real32F s0 s1 s2)) (assign k)) ∧
    gridSize 3 (denseRank3 .real32F 8 9 10) ⟨16, 8, 8⟩ = ⟨1, 2, 1⟩ ∧
    launchedAlong ⟨1, 2, 1⟩ ⟨16, 8, 8⟩ 2 = 8 := by
  have hax : ∀ axis : Fin 3, launchedAlong ⟨1, 1, 7⟩ ⟨16, 8, 8⟩ axis < 100 := by decide
  refine ⟨rfl, by decide, by decide, hax, ?_, by decide, by decide⟩
  rintro ⟨assign, h⟩
  have h2 := h 1 1 100 2
  have hg : gridSize 3 (denseRank3 .real32F 1 1 100)
      (tileSizeRank 3 (denseRank3 .real32F 1 1 100)) = ⟨1, 1, 7⟩ := by decide
  have ht : tileSizeRank 3 (denseRank3 .real32F 1 1 100) = ⟨16, 8, 8⟩ := rfl
  rw [hg, ht] at h2
  have := hax (assign 2)
  simp at h2
  omega

/-! ## Claims on the kernels -/

theorem isInBounds_flat (d : TensorDescriptor) (p : Nat) :
    Index.isInBounds ⟨.Flat, d⟩ [p] = decide (p < d.count) := by
  simp [Index.isInBounds]

theorem linear_flat (d : TensorDescriptor) (p : Nat) : Index.linear ⟨.Flat, d⟩ [p] = p := by
  simp [Index.linear]

/-- C13, the code at the failing input. For a dense 8-bit vector of 1001
elements and shift count 2 there are 251 packed words. `flattened` launches 32
blocks of 32 threads with `Flat(oDesc)` built from the unpacked descriptor, whose
bound is 1001. Thread 27 of block 7 has position 251, passes the bounds check and
hands the packed word 251 to the compute step; thread 8 of block 31 does so for
word 1000. With a conforming operation the slot is overwritten. -/
theorem flattened_packed_store_past_end {α ω : Type} (op : α → ω → ω) (T : Op1 α ω)
    (a : Nat → α) (out : Nat → ω) :
    flattenedA (conformsAlways.inst .uchar4 .uchar4) 0 (denseVector .real8U 1001) 1
        (denseVector .real8U 1001) [] 2
      = .returned .cudaSuccess
          [⟨.mapA, ⟨.uchar4, .uchar4, .uchar4, .uchar4, true⟩, ⟨32, 1, 1⟩, ⟨32, 1, 1⟩,
            [.tensor 0 .uchar4 ⟨.Flat, denseVector .real8U 1001⟩,
             .output 1 .uchar4 ⟨.Flat, denseVector .real8U 1001⟩]⟩] ∧
    shiftDownRoundingUp 1001 2 = 251 ∧ ceilDiv 1001 (2 ^ 2) = 251 ∧
    Flat.Logical ⟨7, 0, 0⟩ ⟨32, 1, 1⟩ ⟨27, 0, 0⟩ = [251] ∧
    (mapA op a ⟨.Flat, denseVector .real8U 1001⟩ out ⟨.Flat, denseVector .real8U 1001⟩
        [251]).writes = [251] ∧
    Flat.Logical ⟨31, 0, 0⟩ ⟨32, 1, 1⟩ ⟨8, 0, 0⟩ = [1000] ∧
    (mapA op a ⟨.Flat, denseVector .real8U 1001⟩ out ⟨.Flat, denseVector .real8U 1001⟩
        [1000]).writes = [1000] ∧
    (T.conforms = true →
      (mapA T.op a ⟨.Flat, denseVector .real8U 1001⟩ out ⟨.Flat, denseVector .real8U 1001⟩
          [251]).out 251 = T.name (a 251)) := by
  refine ⟨by decide, by decide, ?_, rfl, ?_, rfl, ?_, ?_⟩
  · rw [ceilDiv_eq_div _ _ (by norm_num)]
    norm_num
  · simp [mapA, isInBounds_flat, linear_flat, denseVector]
  · simp [mapA, isInBounds_flat, linear_flat, denseVector]
  · intro hc
    simp [mapA, isInBounds_flat, linear_flat, denseVector, Op1.op, hc]

/-- C14. In each of the seven kernels a thread whose logical position fails the
bounds check of the output index scheme reads no operand, hands no output slot
to the compute step, and leaves the output buffer as it was. -/
theorem out_of_bounds_thread_idle {α β γ σ ω : Type}
    (op1 : α → ω → ω) (op2 : α → α → ω → ω) (opS : α → σ → ω → ω) (opAB : α → β → ω → ω)
    (opABC : α → β → γ → ω → ω) (opABE : α → β → α → ω → ω)
    (a : Nat → α) (b : Nat → β) (c : Nat → γ) (element : α) (value : σ) (out : Nat → ω)
    (indexA indexB indexC indexO : Index) (position : List Nat)
    (h : indexO.isInBounds position = false) :
    (mapA op1 a indexA out indexO position).idle out ∧
    (mapAE op2 a indexA element out indexO position).idle out ∧
    (mapEA op2 element a indexA out indexO position).idle out ∧
    (mapAScalar opS a indexA value out indexO position).idle out ∧
    (mapAB opAB a indexA b indexB out indexO position).idle out ∧
    (mapABC opABC a indexA b indexB c indexC out indexO position).idle out ∧
    (mapABE opABE a indexA b indexB element out indexO position).idle out := by
  simp [ThreadResult.idle, mapA, mapAE, mapEA, mapAScalar, mapAB, mapABC, mapABE, h]

/-- Witness for C14: 1000 elements under the `Flat` scheme and a tile of 1024;
threads 1000 and 1023 of block 0 do nothing. -/
theorem out_of_bounds_thread_idle_witness :
    (mapA negOp.op sampleA ⟨.Flat, denseVector .real32I 1000⟩ zeroBuffer
        ⟨.Flat, denseVector .real32I 1000⟩
        (Flat.Logical ⟨0, 0, 0⟩ ⟨1024, 1, 1⟩ ⟨1000, 0, 0⟩)).idle zeroBuffer ∧
    (mapAB subOp.op sampleA ⟨.Flat, denseVector .real32I 1000⟩ sampleB
        ⟨.Flat, denseVector .real32I 1000⟩ zeroBuffer ⟨.Flat, denseVector .real32I 1000⟩
        (Flat.Logical ⟨0, 0, 0⟩ ⟨1024, 1, 1⟩ ⟨1023, 0, 0⟩)).idle zeroBuffer :=
  ⟨(out_of_bounds_thread_idle negOp.op subOp.op subOp.op subOp.op fmaOp.op fmaOp.op
      sampleA sampleB sampleB 2 2 zeroBuffer ⟨.Flat, denseVector .real32I 1000⟩
      ⟨.Flat, denseVector .real32I 1000⟩ ⟨.Flat, denseVector .real32I 1000⟩
      ⟨.Flat, denseVector .real32I 1000⟩ (Flat.Logical ⟨0, 0, 0⟩ ⟨1024, 1, 1⟩ ⟨1000, 0, 0⟩)
      (by decide)).1,
   (out_of_bounds_thread_idle negOp.op subOp.op subOp.op subOp.op fmaOp.op fmaOp.op
      sampleA sampleB sampleB 2 2 zeroBuffer ⟨.Flat, denseVector .real32I 1000⟩
      ⟨.Flat, denseVector .real32I 1000⟩ ⟨.Flat, denseVector .real32I 1000⟩
      ⟨.Flat, denseVector .real32I 1000⟩ (Flat.Logical ⟨0, 0, 0⟩ ⟨1024, 1, 1⟩ ⟨1023, 0, 0⟩)
      (by decide)).2.2.2.2.1⟩

/-- C15. For a conforming binary operation `name`, an in-bounds position and a
scalar `e`: the tensor-element kernels `mapAE` and `mapAScalar` store
`name(a[ia], e)` and the element-tensor kernel `mapEA` stores `name(e, a[ia])` in
the output slot of the position, changing no other slot. For a conforming trait
`flattened` launches `mapAE` for tensor+element, `mapAScalar` for tensor+scalar
and `mapEA` for element+tensor, and `initIndex` launches `mapAScalar` for
tensor+element and `mapEA` for element+tensor. -/
theorem scalar_element_order {T O : Type} (F : Op2 T O) (a : Nat → T) (e : T)
    (out : Nat → O) (indexA indexO : Index) (position : List Nat)
    (Op : OpTrait) (IndexA IndexO : IndexType) (pA pElement pOut : Ptr)
    (aDesc oDesc : TensorDescriptor) (value : Int) (stream : Stream) (shiftCount : Nat)
    (hF : F.conforms = true) (hc : Op.conforms = true)
    (h : indexO.isInBounds position = true) :
    (mapAE F.op a indexA e out indexO position).storedOnly out [indexA.linear position]
      (indexO.linear position) (F.name (a (indexA.linear position)) e) ∧
    (mapAScalar F.op a indexA e out indexO position).storedOnly out [indexA.linear position]
      (indexO.linear position) (F.name (a (indexA.linear position)) e) ∧
    (mapEA F.op e a indexA out indexO position).storedOnly out [indexA.linear position]
      (indexO.linear position) (F.name e (a (indexA.linear position))) ∧
    (flattenedAE Op pA aDesc pElement pOut oDesc stream shiftCount).launchedOne stream .mapAE Op
      [⟨.Flat, aDesc⟩, ⟨.Flat, oDesc⟩] ∧
    (flattenedAScalar Op pA aDesc value pOut oDesc stream shiftCount).launchedOne stream
      .mapAScalar Op [⟨.Flat, aDesc⟩, ⟨.Flat, oDesc⟩] ∧
    (flattenedEA Op pElement pA aDesc pOut oDesc stream shiftCount).launchedOne stream .mapEA Op
      [⟨.Flat, aDesc⟩, ⟨.Flat, oDesc⟩] ∧
    (initIndexAE Op IndexA IndexO pA aDesc pElement pOut oDesc stream).launchedOne stream
      .mapAScalar Op [⟨IndexA, aDesc⟩, ⟨IndexO, oDesc⟩] ∧
    (initIndexEA Op IndexA IndexO pElement pA aDesc pOut oDesc stream).launchedOne stream
      .mapEA Op [⟨IndexA, aDesc⟩, ⟨IndexO, oDesc⟩] := by
  refine ⟨?_, ?_, ?_, ?_, ?_, ?_, ?_, ?_⟩
  · refine ⟨by simp [mapAE, h], by simp [mapAE, h], by simp [mapAE, h, Op2.op, hF], ?_⟩
    intro j hj
    simp [mapAE, h, Function.update_noteq hj]
  · refine ⟨by simp [mapAScalar, h], by simp [mapAScalar, h],
      by simp [mapAScalar, h, Op2.op, hF], ?_⟩
    intro j hj
    simp [mapAScalar, h, Function.update_noteq hj]
  · refine ⟨by simp [mapEA, h], by simp [mapEA, h], by simp [mapEA, h, Op2.op, hF], ?_⟩
    intro j hj
    simp [mapEA, h, Function.update_noteq hj]
  · simp [Outcome.launchedOne, Launch.indexes, KernelArg.index?, flattenedAE, hc]
  · simp [Outcome.launchedOne, Launch.indexes, KernelArg.index?, flattenedAScalar, hc]
  · simp [Outcome.launchedOne, Launch.indexes, KernelArg.index?, flattenedEA, hc]
  · simp [Outcome.launchedOne, Launch.indexes, KernelArg.index?, initIndexAE]
  · simp [Outcome.launchedOne, Launch.indexes, KernelArg.index?, initIndexEA]

/-- Witness for C15: subtraction, `A = [5, 3, 9]`, `e = 2`. The thread at position
1 of `mapAE` stores `3 - 2` and that of `mapEA` stores `2 - 3`; the three threads
together leave `[3, 1, 7]` and `[-3, -1, -7]`. -/
theorem scalar_element_order_witness :
    (mapAE subOp.op sampleA ⟨.Flat, denseVector .real32I 3⟩ 2 zeroBuffer
        ⟨.Flat, denseVector .real32I 3⟩ [1]).storedOnly zeroBuffer
      [Index.linear ⟨.Flat, denseVector .real32I 3⟩ [1]]
      (Index.linear ⟨.Flat, denseVector .real32I 3⟩ [1])
      (subOp.name (sampleA (Index.linear ⟨.Flat, denseVector .real32I 3⟩ [1])) 2) ∧
    (mapEA subOp.op 2 sampleA ⟨.Flat, denseVector .real32I 3⟩ zeroBuffer
        ⟨.Flat, denseVector .real32I 3⟩ [1]).storedOnly zeroBuffer
      [Index.linear ⟨.Flat, denseVector .real32I 3⟩ [1]]
      (Index.linear ⟨.Flat, denseVector .real32I 3⟩ [1])
      (subOp.name 2 (sampleA (Index.linear ⟨.Flat, denseVector .real32I 3⟩ [1]))) ∧
    (List.range 3).map
        (runThreads (fun o p => mapAE subOp.op sampleA ⟨.Flat, denseVector .real32I 3⟩ 2 o
          ⟨.Flat, denseVector .real32I 3⟩ p) [[0], [1], [2]] zeroBuffer) = [3, 1, 7] ∧
    (List.range 3).map
        (runThreads (fun o p => mapAScalar subOp.op sampleA ⟨.Flat, denseVector .real32I 3⟩ 2 o
          ⟨.Flat, denseVector .real32I 3⟩ p) [[0], [1], [2]] zeroBuffer) = [3, 1, 7] ∧
    (List.range 3).map
        (runThreads (fun o p => mapEA subOp.op 2 sampleA ⟨.Flat, denseVector .real32I 3⟩ o
          ⟨.Flat, denseVector .real32I 3⟩ p) [[0], [1], [2]] zeroBuffer) = [-3, -1, -7] :=
  ⟨(scalar_element_order subOp sampleA 2 zeroBuffer ⟨.Flat, denseVector .real32I 3⟩
      ⟨.Flat, denseVector .real32I 3⟩ [1] (conformsAlways.inst .int32_t .int32_t) .Flat .Flat
      0 1 2 (denseVector .real32I 3) (denseVector .real32I 3) 2 [] 0 rfl rfl (by decide)).1,
   (scalar_element_order subOp sampleA 2 zeroBuffer ⟨.Flat, denseVector .real32I 3⟩
      ⟨.Flat, denseVector .real32I 3⟩ [1] (conformsAlways.inst .int32_t .int32_t) .Flat .Flat
      0 1 2 (denseVector .real32I 3) (denseVector .real32I 3) 2 [] 0 rfl rfl
      (by decide)).2.2.1,
   by decide, by decide, by decide⟩

/-- C16. For a conforming operation `name` and an in-bounds position, the thread
of `mapA`, `mapAB` and `mapABC` reads each operand at the offset its own index
scheme gives, stores `name` of the values read into the slot
`out[indexO.linear(position)]` and changes no other slot of the output. -/
theorem thread_stores_result {T O : Type} (F1 : Op1 T O) (F2 : Op2 T O) (F3 : Op3 T O)
    (a b c : Nat → T) (out : Nat → O) (indexA indexB indexC indexO : Index)
    (position : List Nat)
    (h1 : F1.conforms = true) (h2 : F2.conforms = true) (h3 : F3.conforms = true)
    (h : indexO.isInBounds position = true) :
    (mapA F1.op a indexA out indexO position).storedOnly out [indexA.linear position]
      (indexO.linear position) (F1.name (a (indexA.linear position))) ∧
    (mapAB F2.op a indexA b indexB out indexO position).storedOnly out
      [indexA.linear position, indexB.linear position] (indexO.linear position)
      (F2.name (a (indexA.linear position)) (b (indexB.linear position))) ∧
    (mapABC F3.op a indexA b indexB c indexC out indexO position).storedOnly out
      [indexA.linear position, indexB.linear position, indexC.linear position]
      (indexO.linear position)
      (F3.name (a (indexA.linear position)) (b (indexB.linear position))
        (c (indexC.linear position))) := by
  refine ⟨?_, ?_, ?_⟩
  · refine ⟨by simp [mapA, h], by simp [mapA, h], by simp [mapA, h, Op1.op, h1], ?_⟩
    intro j hj
    simp [mapA, h, Function.update_noteq hj]
  · refine ⟨by simp [mapAB, h], by simp [mapAB, h], by simp [mapAB, h, Op2.op, h2], ?_⟩
    intro j hj
    simp [mapAB, h, Function.update_noteq hj]
  · refine ⟨by simp [mapABC, h], by simp [mapABC, h], by simp [mapABC, h, Op3.op, h3], ?_⟩
    intro j hj
    simp [mapABC, h, Function.update_noteq hj]

/-- Witness for C16: a strided operand `a` (every second element) and a dense
operand `b` into a dense output; the thread at position 1 reads `a[2]` and `b[1]`
and stores their difference in `out[1]`. -/
theorem thread_stores_result_witness :
    (mapAB subOp.op sampleA ⟨.Strided 1, stridedVector .real32I 2⟩ sampleB
        ⟨.Strided 1, denseVector .real32I 2⟩ zeroBuffer ⟨.Strided 1, denseVector .real32I 2⟩
        [1]).storedOnly zeroBuffer
      [Index.linear ⟨.Strided 1, stridedVector .real32I 2⟩ [1],
        Index.linear ⟨.Strided 1, denseVector .real32I 2⟩ [1]]
      (Index.linear ⟨.Strided 1, denseVector .real32I 2⟩ [1])
      (subOp.name (sampleA (Index.linear ⟨.Strided 1, stridedVector .real32I 2⟩ [1]))
        (sampleB (Index.linear ⟨.Strided 1, denseVector .real32I 2⟩ [1]))) ∧
    Index.linear ⟨.Strided 1, stridedVector .real32I 2⟩ [1] = 2 ∧
    subOp.name (sampleA 2) (sampleB 1) = 7 :=
  ⟨(thread_stores_result negOp subOp fmaOp sampleA sampleB sampleB zeroBuffer
      ⟨.Strided 1, stridedVector .real32I 2⟩ ⟨.Strided 1, denseVector .real32I 2⟩
      ⟨.Strided 1, denseVector .real32I 2⟩ ⟨.Strided 1, denseVector .real32I 2⟩ [1]
      rfl rfl rfl (by decide)).2.1,
   by decide, by decide⟩

/-! ## Claims on the operation traits and on `fillWord` -/

/-- C18. For the traits that `Op1`, `Op2` and `Op3` generate, at every type pair:
when `conforms()` is false the compute step `op` leaves its output slot as it was
for all operand values; when it is true the slot holds `name(a)`, `name(a, b)`,
`name(a, b, c)`; and the member types `B` and `C` are the type `A`. -/
theorem op_trait_compute_step {T O : Type} (F1 : Op1 T O) (F2 : Op2 T O) (F3 : Op3 T O)
    (a b c : T) (out : O) (Op : OpFamily) (X Y : CType) :
    (F1.conforms = false → F1.op a out = out) ∧
    (F2.conforms = false → F2.op a b out = out) ∧
    (F3.conforms = false → F3.op a b c out = out) ∧
    (F1.conforms = true → F1.op a out = F1.name a) ∧
    (F2.conforms = true → F2.op a b out = F2.name a b) ∧
    (F3.conforms = true → F3.op a b c out = F3.name a b c) ∧
    F2.B = F2.A ∧ F3.B = F3.A ∧ F3.C = F3.A ∧
    (Op.inst X Y).A = X ∧ (Op.inst X Y).B = (Op.inst X Y).A ∧
    (Op.inst X Y).C = (Op.inst X Y).A ∧ (Op.inst X Y).Out = Y := by
  refine ⟨?_, ?_, ?_, ?_, ?_, ?_, rfl, rfl, rfl, rfl, rfl, rfl, rfl⟩ <;> intro h
  · simp [Op1.op, h]
  · simp [Op2.op, h]
  · simp [Op3.op, h]
  · simp [Op1.op, h]
  · simp [Op2.op, h]
  · simp [Op3.op, h]

/-- Witness for C18: subtraction leaves the slot alone where it does not conform
and stores `5 - 2` where it does. -/
theorem op_trait_compute_step_witness :
    subOpNonConforming.op 5 2 9 = 9 ∧ subOp.op 5 2 9 = subOp.name 5 2 ∧
    negOp.op 5 9 = negOp.name 5 ∧ fmaOp.op 5 2 1 9 = fmaOp.name 5 2 1 :=
  ⟨(op_trait_compute_step negOp subOpNonConforming fmaOp 5 2 1 9 conformsAlways .float
      .float).2.1 rfl,
   (op_trait_compute_step negOp subOp fmaOp 5 2 1 9 conformsAlways .float .float).2.2.2.2.1 rfl,
   (op_trait_compute_step negOp subOp fmaOp 5 2 1 9 conformsAlways .float .float).2.2.2.1 rfl,
   (op_trait_compute_step negOp subOp fmaOp 5 2 1 9 conformsAlways
      .float .float).2.2.2.2.2.1 rfl⟩

/-- C19, the code at the failing input. `fillWord<int8_t>` of the value -2 first
converts it to `uint32_t`, which sign-extends it to `0xFFFFFFFE`; or-ing the
shifted copies keeps that word, so the result is `0xFFFFFFFE` and not
`0xFEFEFEFE`: lane 0 holds the bit pattern `0xFE` of -2, lanes 1 to 3 hold `0xFF`.
The same happens for `int16_t`. -/
theorem fillWord_sign_extends :
    fillWord 1 (-2) = 0xFFFFFFFE ∧
    bitPattern 1 (-2) = 0xFE ∧
    wordLane 1 (fillWord 1 (-2)) 0 = 0xFE ∧
    wordLane 1 (fillWord 1 (-2)) 1 = 0xFF ∧
    wordLane 1 (fillWord 1 (-2)) 2 = 0xFF ∧
    wordLane 1 (fillWord 1 (-2)) 3 = 0xFF ∧
    fillWord 2 (-2) = 0xFFFFFFFE ∧
    bitPattern 2 (-2) = 0xFFFE ∧
    wordLane 2 (fillWord 2 (-2)) 1 = 0xFFFF := by
  refine ⟨by decide, by decide, by decide, by decide, by decide, by decide, by decide,
    by decide, by decide⟩

theorem fillWord_step (k : Nat) (out v : Nat) (hk : k ≤ 32) (hv : v < 2 ^ k) :
    ((out <<< k) % 2 ^ 32) ||| v = 2 ^ k * (out % 2 ^ (32 - k)) + v := by
  have h32 : (2 : Nat) ^ 32 = 2 ^ k * 2 ^ (32 - k) := by
    rw [← Nat.pow_add]
    congr 1
    omega
  rw [Nat.shiftLeft_eq, Nat.mul_comm out, h32, Nat.mul_mod_mul_left]
  exact (Nat.mul_add_lt_is_or hv _).symm

/-- C20. For unsigned elements the shift-and-or loop of `fillWord`, which starts
from one copy and runs `32 / bits(T)` times with the left shift wrapping at 32
bits, returns the replicated word: `v * 0x01010101` for every `uint8_t` `v`,
`v * 0x00010001` for every `uint16_t` `v`, and `0x01010101` for `bool` true. -/
theorem fillWord_unsigned_replicates :
    (∀ v : Nat, v < 2 ^ 8 → fillWord 1 (v : Int) = v * 0x01010101) ∧
    (∀ v : Nat, v < 2 ^ 16 → fillWord 2 (v : Int) = v * 0x00010001) ∧
    fillWord 1 1 = 0x01010101 := by
  refine ⟨?_, ?_, by decide⟩
  · intro v hv
    have hval : ((v : Int) % 2 ^ 32).toNat = v := by omega
    have hr : List.range (4 / 1) = [0, 1, 2, 3] := by decide
    simp only [fillWord, hval, hr, List.foldl, Nat.one_mul]
    rw [fillWord_step 8 v v (by norm_num) hv]
    rw [fillWord_step 8 _ v (by norm_num) hv]
    rw [fillWord_step 8 _ v (by norm_num) hv]
    rw [fillWord_step 8 _ v (by norm_num) hv]
    norm_num at hv ⊢
    omega
  · intro v hv
    have hval : ((v : Int) % 2 ^ 32).toNat = v := by omega
    have hr : List.range (4 / 2) = [0, 1] := by decide
    simp only [fillWord, hval, hr, List.foldl]
    rw [show 2 * 8 = 16 by norm_num]
    rw [fillWord_step 16 v v (by norm_num) hv]
    rw [fillWord_step 16 _ v (by norm_num) hv]
    norm_num at hv ⊢
    omega

/-- Witness for C20: the byte `0xAB` fills the word `0xABABABAB`, the half word
`0xBEEF` the word `0xBEEFBEEF`. -/
theorem fillWord_unsigned_replicates_witness :
    fillWord 1 (0xAB : Nat) = 0xAB * 0x01010101 ∧ fillWord 2 (0xBEEF : Nat) = 0xBEEF * 0x00010001 :=
  ⟨fillWord_unsigned_replicates.1 0xAB (by norm_num),
   fillWord_unsigned_replicates.2.1 0xBEEF (by norm_num)⟩

/-! ## Flat and strided addressing of dense tensors -/

theorem pair_index_lt (a b m n : Nat) (ha : a < m) (hb : b < n) : a * n + b < m * n := by
  have h : (a + 1) * n ≤ m * n := Nat.mul_le_mul_right n ha
  rw [Nat.add_mul, Nat.one_mul] at h
  omega

theorem pair_index_inj (a b c d n : Nat) (hb : b < n) (hd : d < n)
    (h : a * n + b = c * n + d) : a = c ∧ b = d := by
  have key : a = c := by
    rcases Nat.lt_trichotomy a c with h1 | h1 | h1
    · have h2 : (a + 1) * n ≤ c * n := Nat.mul_le_mul_right n h1
      rw [Nat.add_mul, Nat.one_mul] at h2
      omega
    · exact h1
    · have h2 : (c + 1) * n ≤ a * n := Nat.mul_le_mul_right n h1
      rw [Nat.add_mul, Nat.one_mul] at h2
      omega
  subst key
  exact ⟨rfl, by omega⟩

theorem pair_index_surj (x m n : Nat) (h : x < m * n) :
    x / n < m ∧ x % n < n ∧ x / n * n + x % n = x := by
  have hn : 0 < n := by
    rcases Nat.eq_zero_or_pos n with h0 | h0
    · subst h0
      simp at h
    · exact h0
  refine ⟨?_, Nat.mod_lt _ hn, Nat.div_add_mod' x n⟩
  rw [Nat.div_lt_iff_lt_mul hn]
  exact h

theorem linear_strided_congr (Rank : Nat) (d1 d2 : TensorDescriptor) (p : List Nat)
    (h : d1.strides = d2.strides) :
    Index.linear ⟨.Strided Rank, d1⟩ p = Index.linear ⟨.Strided Rank, d2⟩ p := by
  simp [Index.linear, h]

theorem runThreads_pointwise {ω : Type} (inB : List Nat → Bool) (lin : List Nat → Nat)
    (g : Nat → ω) (body : (Nat → ω) → List Nat → ThreadResult ω)
    (hbody : ∀ o p, (body o p).out
      = if inB p = true then Function.update o (lin p) (g (lin p)) else o)
    (ps : List (List Nat)) (out : Nat → ω) (slot : Nat) :
    runThreads body ps out slot
      = if ∃ p ∈ ps, inB p = true ∧ lin p = slot then g slot else out slot := by
  induction ps generalizing out with
  | nil => simp [runThreads]
  | cons p ps ih =>
    have hstep : runThreads body (p :: ps) out = runThreads body ps ((body out p).out) := rfl
    rw [hstep, ih, hbody]
    by_cases hex : ∃ q ∈ ps, inB q = true ∧ lin q = slot
    · have hex2 : ∃ q ∈ p :: ps, inB q = true ∧ lin q = slot := by
        obtain ⟨q, hq, hq2⟩ := hex
        exact ⟨q, List.mem_cons_of_mem _ hq, hq2⟩
      rw [if_pos hex, if_pos hex2]
    · rw [if_neg hex]
      by_cases hp : inB p = true ∧ lin p = slot
      · have hex2 : ∃ q ∈ p :: ps, inB q = true ∧ lin q = slot :=
          ⟨p, List.mem_cons_self _ _, hp⟩
        rw [if_pos hex2, if_pos hp.1, ← hp.2]
        simp
      · have hex2 : ¬ ∃ q ∈ p :: ps, inB q = true ∧ lin q = slot := by
          rintro ⟨q, hq, hq2⟩
          rcases List.mem_cons.mp hq with h1 | h1
          · subst h1
            exact hp hq2
          · exact hex ⟨q, h1, hq2⟩
        rw [if_neg hex2]
        by_cases hin : inB p = true
        · rw [if_pos hin]
          have hne : slot ≠ lin p := fun e => hp ⟨hin, e.symm⟩
          simp [Function.update_noteq hne]
        · rw [if_neg hin]

theorem runThreads_unchanged {ω : Type} (body : (Nat → ω) → List Nat → ThreadResult ω)
    (hbody : ∀ o p, (body o p).out = o) (ps : List (List Nat)) (out : Nat → ω) :
    runThreads body ps out = out := by
  induction ps generalizing out with
  | nil => rfl
  | cons p ps ih =>
    have hstep : runThreads body (p :: ps) out = runThreads body ps ((body out p).out) := rfl
    rw [hstep, hbody, ih]

theorem strided_rowMajor_rank1 (s0 : Nat) (d : TensorDescriptor)
    (h : d.isRowMajor [s0]) :
    (∀ p, Index.isInBounds ⟨.Strided 1, d⟩ p = true →
      Index.linear ⟨.Strided 1, d⟩ p = rowMajorIndex [s0] p ∧
        Index.linear ⟨.Strided 1, d⟩ p < d.count) ∧
    (∀ p q, Index.isInBounds ⟨.Strided 1, d⟩ p = true →
      Index.isInBounds ⟨.Strided 1, d⟩ q = true →
      Index.linear ⟨.Strided 1, d⟩ p = Index.linear ⟨.Strided 1, d⟩ q →
      ∀ k < 1, p.getD k 0 = q.getD k 0) ∧
    (∀ n < d.count, ∃ p : List Nat, p.length = 1 ∧
      Index.isInBounds ⟨.Strided 1, d⟩ p = true ∧ Index.linear ⟨.Strided 1, d⟩ p = n) := by
  obtain ⟨_, hs, hst, hc, _⟩ := h
  have hr : List.range 1 = [0] := rfl
  refine ⟨?_, ?_, ?_⟩
  · intro p hp
    simp [Index.isInBounds, Index.linear, hs, hst, hc, hr, rowMajorStrides, rowMajorIndex]
      at hp ⊢
    exact hp
  · intro p q hp hq hl k hk
    simp [Index.isInBounds, Index.linear, hs, hst, hr, rowMajorStrides] at hp hq hl
    have : k = 0 := by omega
    subst this
    simpa using hl
  · intro n hn
    refine ⟨[n], rfl, ?_, ?_⟩
    · simp [Index.isInBounds, hs, hr]
      simpa [hc] using hn
    · simp [Index.linear, hst, hr, rowMajorStrides]

theorem strided_rowMajor_rank2 (s0 s1 : Nat) (d : TensorDescriptor)
    (h : d.isRowMajor [s0, s1]) :
    (∀ p, Index.isInBounds ⟨.Strided 2, d⟩ p = true →
      Index.linear ⟨.Strided 2, d⟩ p = rowMajorIndex [s0, s1] p ∧
        Index.linear ⟨.Strided 2, d⟩ p < d.count) ∧
    (∀ p q, Index.isInBounds ⟨.Strided 2, d⟩ p = true →
      Index.isInBounds ⟨.Strided 2, d⟩ q = true →
      Index.linear ⟨.Strided 2, d⟩ p = Index.linear ⟨.Strided 2, d⟩ q →
      ∀ k < 2, p.getD k 0 = q.getD k 0) ∧
    (∀ n < d.count, ∃ p : List Nat, p.length = 2 ∧
      Index.isInBounds ⟨.Strided 2, d⟩ p = true ∧ Index.linear ⟨.Strided 2, d⟩ p = n) := by
  obtain ⟨_, hs, hst, hc, _⟩ := h
  have hr : List.range 2 = [0, 1] := rfl
  have hlin : ∀ p : List Nat,
      Index.linear ⟨.Strided 2, d⟩ p = p.getD 0 0 * s1 + p.getD 1 0 := by
    intro p
    simp [Index.linear, hst, hr, rowMajorStrides]
  have hin : ∀ p : List Nat, Index.isInBounds ⟨.Strided 2, d⟩ p = true ↔
      p.getD 0 0 < s0 ∧ p.getD 1 0 < s1 := by
    intro p
    simp [Index.isInBounds, hs, hr]
  have hcount : d.count = s0 * s1 := by simp [hc]
  refine ⟨?_, ?_, ?_⟩
  · intro p hp
    rw [hin] at hp
    rw [hlin, hcount]
    refine ⟨by simp [rowMajorIndex, hr], pair_index_lt _ _ _ _ hp.1 hp.2⟩
  · intro p q hp hq hl k hk
    rw [hin] at hp hq
    rw [hlin, hlin] at hl
    obtain ⟨e0, e1⟩ := pair_index_inj _ _ _ _ _ hp.2 hq.2 hl
    have : k = 0 ∨ k = 1 := by omega
    rcases this with rfl | rfl
    · exact e0
    · exact e1
  · intro n hn
    rw [hcount] at hn
    obtain ⟨h0, h1, he⟩ := pair_index_surj n s0 s1 hn
    refine ⟨[n / s1, n % s1], rfl, ?_, ?_⟩
    · rw [hin]
      exact ⟨h0, h1⟩
    · rw [hlin]
      exact he

theorem strided_rowMajor_rank3 (s0 s1 s2 : Nat) (d : TensorDescriptor)
    (h : d.isRowMajor [s0, s1, s2]) :
    (∀ p, Index.isInBounds ⟨.Strided 3, d⟩ p = true →
      Index.linear ⟨.Strided 3, d⟩ p = rowMajorIndex [s0, s1, s2] p ∧
        Index.linear ⟨.Strided 3, d⟩ p < d.count) ∧
    (∀ p q, Index.isInBounds ⟨.Strided 3, d⟩ p = true →
      Index.isInBounds ⟨.Strided 3, d⟩ q = true →
      Index.linear ⟨.Strided 3, d⟩ p = Index.linear ⟨.Strided 3, d⟩ q →
      ∀ k < 3, p.getD k 0 = q.getD k 0) ∧
    (∀ n < d.count, ∃ p : List Nat, p.length = 3 ∧
      Index.isInBounds ⟨.Strided 3, d⟩ p = true ∧ Index.linear ⟨.Strided 3, d⟩ p = n) := by
  obtain ⟨_, hs, hst, hc, _⟩ := h
  have hr : List.range 3 = [0, 1, 2] := rfl
  have hlin : ∀ p : List Nat,
      Index.linear ⟨.Strided 3, d⟩ p
        = (p.getD 0 0 * s1 + p.getD 1 0) * s2 + p.getD 2 0 := by
    intro p
    simp [Index.linear, hst, hr, rowMajorStrides]
    ring
  have hin : ∀ p : List Nat, Index.isInBounds ⟨.Strided 3, d⟩ p = true ↔
      p.getD 0 0 < s0 ∧ p.getD 1 0 < s1 ∧ p.getD 2 0 < s2 := by
    intro p
    simp [Index.isInBounds, hs, hr]
  have hcount : d.count = s0 * s1 * s2 := by
    simp [hc]
    ring
  refine ⟨?_, ?_, ?_⟩
  · intro p hp
    rw [hin] at hp
    rw [hlin, hcount]
    refine ⟨by simp [rowMajorIndex, hr], ?_⟩
    exact pair_index_lt _ _ _ _ (pair_index_lt _ _ _ _ hp.1 hp.2.1) hp.2.2
  · intro p q hp hq hl k hk
    rw [hin] at hp hq
    rw [hlin, hlin] at hl
    obtain ⟨e01, e2⟩ := pair_index_inj _ _ _ _ _ hp.2.2 hq.2.2 hl
    obtain ⟨e0, e1⟩ := pair_index_inj _ _ _ _ _ hp.2.1 hq.2.1 e01
    have : k = 0 ∨ k = 1 ∨ k = 2 := by omega
    rcases this with rfl | rfl | rfl
    · exact e0
    · exact e1
    · exact e2
  · intro n hn
    rw [hcount] at hn
    obtain ⟨h01, h2, he⟩ := pair_index_surj n (s0 * s1) s2 hn
    obtain ⟨h0, h1, he1⟩ := pair_index_surj (n / s2) s0 s1 h01
    refine ⟨[n / s2 / s1, n / s2 % s1, n % s2], rfl, ?_, ?_⟩
    · rw [hin]
      exact ⟨h0, h1, h2⟩
    · rw [hlin]
      simp only [List.getD_cons_zero, List.getD_cons_succ]
      rw [he1, he]

theorem strided_rowMajor_facts (R : Nat) (shape : List Nat)
    (hR : R = 1 ∨ R = 2 ∨ R = 3) (hlen : shape.length = R) (d : TensorDescriptor)
    (h : d.isRowMajor shape) :
    (∀ p, Index.isInBounds ⟨.Strided R, d⟩ p = true →
      Index.linear ⟨.Strided R, d⟩ p = rowMajorIndex shape p ∧
        Index.linear ⟨.Strided R, d⟩ p < d.count) ∧
    (∀ p q, Index.isInBounds ⟨.Strided R, d⟩ p = true →
      Index.isInBounds ⟨.Strided R, d⟩ q = true →
      Index.linear ⟨.Strided R, d⟩ p = Index.linear ⟨.Strided R, d⟩ q →
      ∀ k < R, p.getD k 0 = q.getD k 0) ∧
    (∀ n < d.count, ∃ p : List Nat, p.length = R ∧
      Index.isInBounds ⟨.Strided R, d⟩ p = true ∧ Index.linear ⟨.Strided R, d⟩ p = n) := by
  rcases hR with rfl | rfl | rfl
  · obtain ⟨s0, rfl⟩ := List.length_eq_one.mp hlen
    exact strided_rowMajor_rank1 s0 d h
  · obtain ⟨s0, s1, rfl⟩ := List.length_eq_two.mp hlen
    exact strided_rowMajor_rank2 s0 s1 d h
  · obtain ⟨s0, s1, s2, rfl⟩ := List.length_eq_three.mp hlen
    exact strided_rowMajor_rank3 s0 s1 s2 d h

theorem strided_run_dense {ω : Type} (R : Nat) (shape : List Nat)
    (hR : R = 1 ∨ R = 2 ∨ R = 3) (hlen : shape.length = R) (oDesc : TensorDescriptor)
    (ho : oDesc.isRowMajor shape) (g : Nat → ω)
    (body : (Nat → ω) → List Nat → ThreadResult ω)
    (hbody : ∀ o p, (body o p).out
      = if Index.isInBounds ⟨.Strided R, oDesc⟩ p = true
        then Function.update o (Index.linear ⟨.Strided R, oDesc⟩ p)
          (g (Index.linear ⟨.Strided R, oDesc⟩ p))
        else o)
    (ps : List (List Nat))
    (hps : ∀ p : List Nat, p.length = R → Index.isInBounds ⟨.Strided R, oDesc⟩ p = true → p ∈ ps)
    (out : Nat → ω) (slot : Nat) :
    runThreads body ps out slot = if slot < oDesc.count then g slot else out slot := by
  obtain ⟨hb, _, hsurj⟩ := strided_rowMajor_facts R shape hR hlen oDesc ho
  rw [runThreads_pointwise _ _ g body hbody]
  by_cases hs : slot < oDesc.count
  · obtain ⟨p, hpl, hpi, hpe⟩ := hsurj slot hs
    rw [if_pos hs, if_pos ⟨p, hps p hpl hpi, hpi, hpe⟩]
  · rw [if_neg hs, if_neg]
    rintro ⟨p, _, hpi, hpe⟩
    exact hs (hpe ▸ (hb p hpi).2)

theorem flat_run_dense {ω : Type} (oDesc : TensorDescriptor) (g : Nat → ω)
    (body : (Nat → ω) → List Nat → ThreadResult ω)
    (hbody : ∀ o p, (body o p).out
      = if Index.isInBounds ⟨.Flat, oDesc⟩ p = true
        then Function.update o (Index.linear ⟨.Flat, oDesc⟩ p)
          (g (Index.linear ⟨.Flat, oDesc⟩ p))
        else o)
    (qs : List (List Nat)) (hqs : ∀ n < oDesc.count, [n] ∈ qs)
    (out : Nat → ω) (slot : Nat) :
    runThreads body qs out slot = if slot < oDesc.count then g slot else out slot := by
  rw [runThreads_pointwise _ _ g body hbody]
  by_cases hs : slot < oDesc.count
  · rw [if_pos hs, if_pos ⟨[slot], hqs slot hs, by simp [Index.isInBounds, hs],
      by simp [Index.linear]⟩]
  · rw [if_neg hs, if_neg]
    rintro ⟨p, _, hpi, hpe⟩
    simp [Index.isInBounds, Index.linear] at hpi hpe
    omega

/-- C17. For every rank `R` in {1, 2, 3}, every shape of that rank, and operand
and output descriptors that are dense with the canonical row-major strides of the
shape: the `Strided<R>` offset of every in-bounds coordinate is its row-major flat
index and lies below the element count, distinct in-bounds coordinates have
distinct offsets, and every offset below the count is the offset of an in-bounds
coordinate. Hence running the body of `mapA` (and of `mapAB`) once at every
in-bounds position under the `Strided<R>` schemes and once at every position
below the count under the `Flat` schemes leaves the same value in every output
slot. -/
theorem flat_strided_equivalence {T O : Type} (R : Nat) (shape : List Nat)
    (aDesc bDesc oDesc : TensorDescriptor) (F1 : Op1 T O) (F2 : Op2 T O)
    (a b : Nat → T) (out : Nat → O) (ps qs : List (List Nat))
    (hR : R = 1 ∨ R = 2 ∨ R = 3) (hlen : shape.length = R)
    (ha : aDesc.isRowMajor shape) (hb : bDesc.isRowMajor shape) (ho : oDesc.isRowMajor shape)
    (hps : ∀ p : List Nat, p.length = R → Index.isInBounds ⟨.Strided R, oDesc⟩ p = true → p ∈ ps)
    (hqs : ∀ n < oDesc.count, [n] ∈ qs) :
    (∀ p, Index.isInBounds ⟨.Strided R, oDesc⟩ p = true →
      Index.linear ⟨.Strided R, oDesc⟩ p = rowMajorIndex shape p ∧
        Index.linear ⟨.Strided R, oDesc⟩ p < oDesc.count) ∧
    (∀ p q, Index.isInBounds ⟨.Strided R, oDesc⟩ p = true →
      Index.isInBounds ⟨.Strided R, oDesc⟩ q = true →
      Index.linear ⟨.Strided R, oDesc⟩ p = Index.linear ⟨.Strided R, oDesc⟩ q →
      ∀ k < R, p.getD k 0 = q.getD k 0) ∧
    (∀ n < oDesc.count, ∃ p : List Nat, p.length = R ∧
      Index.isInBounds ⟨.Strided R, oDesc⟩ p = true ∧ Index.linear ⟨.Strided R, oDesc⟩ p = n) ∧
    (∀ slot,
      runThreads (fun o p => mapA F1.op a ⟨.Strided R, aDesc⟩ o ⟨.Strided R, oDesc⟩ p) ps out slot
        = runThreads (fun o p => mapA F1.op a ⟨.Flat, aDesc⟩ o ⟨.Flat, oDesc⟩ p) qs out slot) ∧
    (∀ slot,
      runThreads (fun o p => mapAB F2.op a ⟨.Strided R, aDesc⟩ b ⟨.Strided R, bDesc⟩ o
          ⟨.Strided R, oDesc⟩ p) ps out slot
        = runThreads (fun o p => mapAB F2.op a ⟨.Flat, aDesc⟩ b ⟨.Flat, bDesc⟩ o
          ⟨.Flat, oDesc⟩ p) qs out slot) := by
  obtain ⟨f1, f2, f3⟩ := strided_rowMajor_facts R shape hR hlen oDesc ho
  have hsa : aDesc.strides = oDesc.strides := by rw [ha.2.2.1, ho.2.2.1]
  have hsb : bDesc.strides = oDesc.strides := by rw [hb.2.2.1, ho.2.2.1]
  have hla := fun p => linear_strided_congr R aDesc oDesc p hsa
  have hlb := fun p => linear_strided_congr R bDesc oDesc p hsb
  have hfa : ∀ p, Index.linear ⟨.Flat, aDesc⟩ p = Index.linear ⟨.Flat, oDesc⟩ p := fun _ => rfl
  have hfb : ∀ p, Index.linear ⟨.Flat, bDesc⟩ p = Index.linear ⟨.Flat, oDesc⟩ p := fun _ => rfl
  refine ⟨f1, f2, f3, ?_, ?_⟩
  · intro slot
    cases hc : F1.conforms with
    | false =>
      rw [runThreads_unchanged, runThreads_unchanged]
      · intro o p
        simp only [mapA, Op1.op, hc]
        split <;> simp
      · intro o p
        simp only [mapA, Op1.op, hc]
        split <;> simp
    | true =>
      rw [strided_run_dense R shape hR hlen oDesc ho (fun n => F1.name (a n)) _ _ ps hps,
        flat_run_dense oDesc (fun n => F1.name (a n)) _ _ qs hqs]
      · intro o p
        simp only [mapA, Op1.op, hc, hfa]
        split <;> simp
      · intro o p
        simp only [mapA, Op1.op, hc, hla]
        split <;> simp
  · intro slot
    cases hc : F2.conforms with
    | false =>
      rw [runThreads_unchanged, runThreads_unchanged]
      · intro o p
        simp only [mapAB, Op2.op, hc]
        split <;> simp
      · intro o p
        simp only [mapAB, Op2.op, hc]
        split <;> simp
    | true =>
      rw [strided_run_dense R shape hR hlen oDesc ho (fun n => F2.name (a n) (b n)) _ _ ps hps,
        flat_run_dense oDesc (fun n => F2.name (a n) (b n)) _ _ qs hqs]
      · intro o p
        simp only [mapAB, Op2.op, hc, hfa, hfb]
        split <;> simp
      · intro o p
        simp only [mapAB, Op2.op, hc, hla, hlb]
        split <;> simp

/-- Witness for C17: a dense 2 x 3 matrix. Negating `[5, 3, 9, 0, 0, 0]` over
the six coordinates under `Strided<2>` and over the six flat positions under
`Flat` gives the same output buffer. -/
theorem flat_strided_equivalence_witness :
    (∀ slot,
      runThreads (fun o p => mapA negOp.op sampleA ⟨.Strided 2, denseMatrix .real32I 2 3⟩ o
          ⟨.Strided 2, denseMatrix .real32I 2 3⟩ p) coords2x3 zeroBuffer slot
        = runThreads (fun o p => mapA negOp.op sampleA ⟨.Flat, denseMatrix .real32I 2 3⟩ o
          ⟨.Flat, denseMatrix .real32I 2 3⟩ p) flat6 zeroBuffer slot) ∧
    (List.range 6).map
        (runThreads (fun o p => mapA negOp.op sampleA ⟨.Strided 2, denseMatrix .real32I 2 3⟩ o
          ⟨.Strided 2, denseMatrix .real32I 2 3⟩ p) coords2x3 zeroBuffer)
      = [-5, -3, -9, 0, 0, 0] ∧
    Index.linear ⟨.Strided 2, denseMatrix .real32I 2 3⟩ [1, 2] = 5 :=
  ⟨(flat_strided_equivalence 2 [2, 3] (denseMatrix .real32I 2 3) (denseMatrix .real32I 2 3)
      (denseMatrix .real32I 2 3) negOp subOp sampleA sampleB zeroBuffer coords2x3 flat6
      (Or.inr (Or.inl rfl)) rfl ⟨rfl, rfl, rfl, rfl, rfl⟩ ⟨rfl, rfl, rfl, rfl, rfl⟩
      ⟨rfl, rfl, rfl, rfl, rfl⟩
      (by
        intro p hl hp
        obtain ⟨c0, c1, rfl⟩ := List.length_eq_two.mp hl
        have hr : List.range 2 = [0, 1] := rfl
        simp [Index.isInBounds, denseMatrix, hr] at hp
        obtain ⟨h0, h1⟩ := hp
        interval_cases c0 <;> interval_cases c1 <;> simp [coords2x3])
      (by
        intro n hn
        have hn6 : n < 6 := hn
        interval_cases n <;> simp [flat6])).2.2.2.1,
   by decide, by decide⟩

/-! ## Claims on the behaviour of the whole cascade -/

theorem selectA_eq_resolved (Op : OpFamily) (a : Ptr) (aDesc : TensorDescriptor) (out : Ptr)
    (oDesc : TensorDescriptor) (stream : Stream) :
    selectA Op a aDesc out oDesc stream =
      match resolvedOperand aDesc oDesc with
      | some A => selectOutTable Op A (.A a aDesc) out oDesc stream
      | none => .returned .cudaErrorNotSupported stream := by
  have h := select_eq_table Op (.A a aDesc) out oDesc stream
  simp only [select, Operands.aDesc, stage1Type, Operands.hasElement, Bool.false_and,
    Bool.false_eq_true, if_false] at h
  rw [h]
  rfl

/-- C21. With `aDesc.rank = oDesc.rank` the one-tensor `select` returns
`cudaSuccess` (after queueing one launch) exactly when both tags are among the
eleven supported ones, `Op<A, Out>::conforms()` holds for the resolved types, and
either `A` is packed or `oDesc.rank` is 1, 2 or 3; in every other case it returns
`cudaErrorNotSupported` and queues nothing. `A` is packed exactly when `a` and
`out` are dense and the operand tag is a 16-bit, 8-bit or boolean one. -/
theorem select_success_condition (Op : OpFamily) (a : Ptr) (aDesc : TensorDescriptor)
    (out : Ptr) (oDesc : TensorDescriptor) (stream : Stream)
    (h : aDesc.rank = oDesc.rank) :
    (selectSucceeds Op aDesc oDesc →
      ∃ l : Launch, selectA Op a aDesc out oDesc stream
        = .returned .cudaSuccess (stream ++ [l])) ∧
    (¬ selectSucceeds Op aDesc oDesc →
      selectA Op a aDesc out oDesc stream = .returned .cudaErrorNotSupported stream) ∧
    (∀ A, resolvedOperand aDesc oDesc = some A →
      (isPacked A = true ↔
        (aDesc.isDense && oDesc.isDense) = true ∧ shiftOf aDesc.type ≠ 0)) ∧
    (resolvedOperand aDesc oDesc ≠ none ↔ naturalType aDesc.type ≠ none) ∧
    (∀ A, resolvedResult A oDesc ≠ none ↔ naturalType oDesc.type ≠ none) := by
  have hr : ranksAgree (.A a aDesc) oDesc := by
    intro d hd
    simp [Operands.descs] at hd
    rw [hd, h]
  refine ⟨?_, ?_, ?_, ?_, ?_⟩
  · rintro ⟨A, O, hA, hO, hc, hp⟩
    rw [selectA_eq_resolved, hA]
    cases hpA : isPacked A with
    | true =>
      simp only [resolvedResult, hpA, if_true] at hO
      simp only [selectOutTable, hpA, if_true, hO]
      obtain ⟨l, hl, _⟩ := flattened_conforming (Op.inst A O) (.A a aDesc) out oDesc stream
        (shiftOf oDesc.type) hc
      exact ⟨l, hl⟩
    | false =>
      simp only [resolvedResult, hpA, Bool.false_eq_true, if_false] at hO
      simp only [selectOutTable, hpA, Bool.false_eq_true, if_false, hO]
      have hk : oDesc.rank = 1 ∨ oDesc.rank = 2 ∨ oDesc.rank = 3 := by
        rcases hp with hp | hp
        · rw [hpA] at hp
          cases hp
        · exact hp
      obtain ⟨l, hl, _⟩ := selectRank_supported_rank (Op.inst A O) (.A a aDesc) out oDesc
        stream hc hr hk
      exact ⟨l, hl⟩
  · intro hn
    rw [selectA_eq_resolved]
    cases hA : resolvedOperand aDesc oDesc with
    | none => rfl
    | some A =>
      simp only [selectOutTable]
      cases hpA : isPacked A with
      | true =>
        simp only [if_true]
        cases hO : denseType oDesc.type with
        | none => rfl
        | some O =>
          simp only []
          cases hc : Op.conforms A O with
          | false => exact flattened_not_conforming (Op.inst A O) _ out oDesc stream _ hc
          | true =>
            exact absurd ⟨A, O, hA, by simp [resolvedResult, hpA, hO], hc, Or.inl hpA⟩ hn
      | false =>
        simp only [Bool.false_eq_true, if_false]
        cases hO : naturalType oDesc.type with
        | none => rfl
        | some O =>
          simp only []
          cases hc : Op.conforms A O with
          | false => exact selectRank_not_conforming (Op.inst A O) _ out oDesc stream hc
          | true =>
            apply selectRank_unsupported_rank (Op.inst A O) _ out oDesc stream hr
            intro hk
            exact hn ⟨A, O, hA, by simp [resolvedResult, hpA, hO], hc, Or.inr hk⟩
  · intro A hA
    unfold resolvedOperand at hA
    cases hd : (aDesc.isDense && oDesc.isDense) <;> rw [hd] at hA <;>
      cases ht : aDesc.type <;> rw [ht] at hA <;>
      simp [denseType, naturalType] at hA <;> subst hA <;> simp [isPacked, shiftOf]
  · unfold resolvedOperand
    cases hd : (aDesc.isDense && oDesc.isDense) <;> cases ht : aDesc.type <;>
      simp [denseType, naturalType]
  · intro A
    unfold resolvedResult
    cases hp : isPacked A <;> cases ht : oDesc.type <;> simp [denseType, naturalType]

/-- Witness for C21: a dense 8-bit tensor of rank 4 is accepted, a dense 32-bit
float tensor of rank 4 is rejected. -/
theorem select_success_condition_witness :
    (∃ l : Launch,
      selectA conformsAlways 0 (denseRank4 .real8I 2 3 4 5) 1 (denseRank4 .real8I 2 3 4 5) []
        = .returned .cudaSuccess ([] ++ [l])) ∧
    selectA conformsAlways 0 (denseRank4 .real32F 2 3 4 5) 1 (denseRank4 .real32F 2 3 4 5) []
      = .returned .cudaErrorNotSupported [] :=
  ⟨(select_success_condition conformsAlways 0 (denseRank4 .real8I 2 3 4 5) 1
      (denseRank4 .real8I 2 3 4 5) [] rfl).1
      ⟨.char4, .char4, rfl, rfl, rfl, Or.inl rfl⟩,
   (select_success_condition conformsAlways 0 (denseRank4 .real32F 2 3 4 5) 1
      (denseRank4 .real32F 2 3 4 5) [] rfl).2.1
      (by
        rintro ⟨A, O, hA, _, _, hp⟩
        have hA2 : A = .float := by
          have : resolvedOperand (denseRank4 .real32F 2 3 4 5) (denseRank4 .real32F 2 3 4 5)
              = some .float := rfl
          rw [this] at hA
          exact (Option.some.inj hA).symm
        subst hA2
        rcases hp with hp | hp | hp | hp
        · cases hp
        · cases hp
        · cases hp
        · cases hp)⟩

/-- C22, counterexample. `select` launches through `flattened` for a dense 8-bit
operand with a dense 32-bit float output: the operand type `char4` folds 4
elements, the result type `float` folds 1, and the launch has shift count 0. For
a dense 16-bit float operand with a dense boolean output the types are `__half2`
(2 elements) and `bool4` (4 elements) with shift count 2. -/
theorem packing_factors_can_differ :
    select conformsAlways (.A 0 (denseVector .real8I 8)) 1 (denseVector .real32F 8) []
      = flattened (conformsAlways.inst .char4 .float) (.A 0 (denseVector .real8I 8)) 1
          (denseVector .real32F 8) [] 0 ∧
    select conformsAlways (.A 0 (denseVector .real8I 8)) 1 (denseVector .real32F 8) []
      = .returned .cudaSuccess
          [⟨.mapA, ⟨.char4, .char4, .char4, .float, true⟩, ⟨1, 1, 1⟩, ⟨32, 1, 1⟩,
            [.tensor 0 .char4 ⟨.Flat, denseVector .real8I 8⟩,
             .output 1 .float ⟨.Flat, denseVector .real32F 8⟩]⟩] ∧
    packFactor .char4 = 4 ∧ packFactor .float = 1 ∧
    select conformsAlways (.A 0 (denseVector .real16F 8)) 1 (denseVector .boolean 8) []
      = flattened (conformsAlways.inst .half2 .bool4) (.A 0 (denseVector .real16F 8)) 1
          (denseVector .boolean 8) [] 2 ∧
    packFactor .half2 = 2 ∧ packFactor .bool4 = 4 :=
  ⟨rfl, rfl, rfl, rfl, rfl, rfl, rfl⟩

/-- C22, amended. Whenever `select` goes through `flattened` (stage 1 resolves a
packed operand type `A`, the output tag is supported with result type `Out`), the
shift count of the launch is that of the output tag and `2 ^ shiftCount` is the
number of elements folded into one `Out`; `A` folds `2 ^ shiftOf(aDesc.type)`
elements, so the two packing factors agree exactly when the operand tag and the
output tag have the same shift count (both 16-bit, or both 8-bit or boolean). -/
theorem packing_factor_of_launch (Op : OpFamily) (args : Operands) (out : Ptr)
    (oDesc : TensorDescriptor) (stream : Stream) (A O : CType)
    (hd : (args.aDesc.isDense && oDesc.isDense) = true)
    (hA : stage1Type args true args.aDesc.type = some A) (hp : isPacked A = true)
    (hO : denseType oDesc.type = some O) :
    select Op args out oDesc stream
      = flattened (Op.inst A O) args out oDesc stream (shiftOf oDesc.type) ∧
    packFactor O = 2 ^ shiftOf oDesc.type ∧
    packFactor A = 2 ^ shiftOf args.aDesc.type ∧
    (packFactor A = packFactor O ↔ shiftOf args.aDesc.type = shiftOf oDesc.type) := by
  have h1 : select Op args out oDesc stream
      = flattened (Op.inst A O) args out oDesc stream (shiftOf oDesc.type) := by
    rw [select_eq_table, hd, hA]
    simp [selectOutTable, hp, hO]
  have h2 : packFactor O = 2 ^ shiftOf oDesc.type := by
    cases ht : oDesc.type <;> rw [ht] at hO <;> simp [denseType] at hO <;> subst hO <;>
      simp [packFactor, shiftOf]
  have h3 : packFactor A = 2 ^ shiftOf args.aDesc.type := by
    unfold stage1Type at hA
    cases ht : args.aDesc.type <;> rw [ht] at hA <;> cases he : args.hasElement <;>
      simp [he, denseType] at hA <;> subst hA <;> simp [packFactor, shiftOf]
  refine ⟨h1, h2, h3, ?_⟩
  rw [h2, h3]
  constructor
  · intro h
    exact Nat.pow_right_injective (le_refl 2) h
  · intro h
    rw [h]

/-- Witness for C22, amended: dense 8-bit operand and dense boolean output fold 4
elements each, with shift count 2. -/
theorem packing_factor_of_launch_witness :
    select conformsAlways (.A 0 (denseVector .real8I 8)) 1 (denseVector .boolean 8) []
      = flattened (conformsAlways.inst .char4 .bool4) (.A 0 (denseVector .real8I 8)) 1
          (denseVector .boolean 8) [] (shiftOf (denseVector .boolean 8).type) ∧
    packFactor .bool4 = 2 ^ shiftOf (denseVector .boolean 8).type ∧
    packFactor .char4 = 2 ^ shiftOf (Operands.A 0 (denseVector .real8I 8)).aDesc.type ∧
    (packFactor .char4 = packFactor .bool4 ↔
      shiftOf (Operands.A 0 (denseVector .real8I 8)).aDesc.type
        = shiftOf (denseVector .boolean 8).type) :=
  packing_factor_of_launch conformsAlways (.A 0 (denseVector .real8I 8)) 1
    (denseVector .boolean 8) [] .char4 .bool4 rfl rfl rfl rfl

/-- C23, the code at the failing input. `isInteger` is `std::is_integral`, which
is true for `int8_t`, `uint8_t`, `int16_t`, `uint16_t` and `bool` and false for
the vector structs `char4`, `uchar4`, `short2`, `ushort2` and `bool4`; `isBool`
compares with `bool` only; so `isInteger`, `isNumeric` and `isBool` change value
under packing, while `isFloating` names `__half2` and `__nv_bfloat162` and does
not. An operation whose conformance is `isInteger<A>() && isSame<A, O>()` is
launched on strided 8-bit tensors and rejected on dense ones. -/
theorem conformance_changes_under_packing :
    isInteger .int8_t = true ∧ isInteger .char4 = false ∧
    isInteger .uint8_t = true ∧ isInteger .uchar4 = false ∧
    isInteger .int16_t = true ∧ isInteger .short2 = false ∧
    isInteger .uint16_t = true ∧ isInteger .ushort2 = false ∧
    isInteger .bool = true ∧ isInteger .bool4 = false ∧
    isNumeric .int8_t = true ∧ isNumeric .char4 = false ∧
    isNumeric .bool = true ∧ isNumeric .bool4 = false ∧
    isBool .bool = true ∧ isBool .bool4 = false ∧
    isFloating .half = true ∧ isFloating .half2 = true ∧
    isFloating .nv_bfloat16 = true ∧ isFloating .nv_bfloat162 = true ∧
    isNumeric .half = true ∧ isNumeric .half2 = true ∧
    select integerOnly (.A 0 (stridedVector .real8I 8)) 1 (stridedVector .real8I 8) []
      = .returned .cudaSuccess
          [⟨.mapA, ⟨.int8_t, .int8_t, .int8_t, .int8_t, true⟩, ⟨1, 1, 1⟩, ⟨32, 1, 1⟩,
            [.tensor 0 .int8_t ⟨.Strided 1, stridedVector .real8I 8⟩,
             .output 1 .int8_t ⟨.Strided 1, stridedVector .real8I 8⟩]⟩] ∧
    select integerOnly (.A 0 (denseVector .real8I 8)) 1 (denseVector .real8I 8) []
      = .returned .cudaErrorNotSupported [] := by
  refine ⟨rfl, rfl, rfl, rfl, rfl, rfl, rfl, rfl, rfl, rfl, rfl, rfl, rfl, rfl, rfl, rfl, rfl,
    rfl, rfl, rfl, rfl, rfl, by decide, by decide⟩

/-- C24. Every overload of `selectOut` ignores its `shiftCount` argument: for the
same pointers, descriptors and stream, any two values of it give the same
outcome (status and launch). On the packed branch the call is the `flattened`
call with the shift count of the output tag: 0 for the 32-bit, 64-bit and complex
tags, 1 for the 16-bit tags, 2 for the 8-bit tags and boolean. -/
theorem selectOut_ignores_shiftCount (Op : OpFamily) (A : CType) (a b element out : Ptr)
    (aDesc bDesc oDesc : TensorDescriptor) (stream : Stream) (k1 k2 : Nat) :
    selectOutA Op A a aDesc out oDesc stream k1
      = selectOutA Op A a aDesc out oDesc stream k2 ∧
    selectOutAE Op A a aDesc element out oDesc stream k1
      = selectOutAE Op A a aDesc element out oDesc stream k2 ∧
    selectOutEA Op A element a aDesc out oDesc stream k1
      = selectOutEA Op A element a aDesc out oDesc stream k2 ∧
    selectOutAB Op A a aDesc b bDesc out oDesc stream k1
      = selectOutAB Op A a aDesc b bDesc out oDesc stream k2 ∧
    (isPacked A = true → ∀ O, denseType oDesc.type = some O →
      selectOutA Op A a aDesc out oDesc stream k1
        = flattenedA (Op.inst A O) a aDesc out oDesc stream (shiftOf oDesc.type) ∧
      selectOutAE Op A a aDesc element out oDesc stream k1
        = flattenedAE (Op.inst A O) a aDesc element out oDesc stream (shiftOf oDesc.type) ∧
      selectOutEA Op A element a aDesc out oDesc stream k1
        = flattenedEA (Op.inst A O) element a aDesc out oDesc stream (shiftOf oDesc.type) ∧
      selectOutAB Op A a aDesc b bDesc out oDesc stream k1
        = flattenedAB (Op.inst A O) a aDesc b bDesc out oDesc stream (shiftOf oDesc.type)) ∧
    shiftOf .real32F = 0 ∧ shiftOf .real64F = 0 ∧ shiftOf .real32I = 0 ∧
    shiftOf .complex32F = 0 ∧
    shiftOf .real16F = 1 ∧ shiftOf .real16BF = 1 ∧ shiftOf .real16I = 1 ∧
    shiftOf .real16U = 1 ∧
    shiftOf .real8I = 2 ∧ shiftOf .real8U = 2 ∧ shiftOf .boolean = 2 := by
  refine ⟨?_, ?_, ?_, ?_, ?_, rfl, rfl, rfl, rfl, rfl, rfl, rfl, rfl, rfl, rfl, rfl⟩
  · rw [selectOutA_eq_table, selectOutA_eq_table]
  · rw [selectOutAE_eq_table, selectOutAE_eq_table]
  · rw [selectOutEA_eq_table, selectOutEA_eq_table]
  · rw [selectOutAB_eq_table, selectOutAB_eq_table]
  · intro hp O hO
    rw [selectOutA_eq_table, selectOutAE_eq_table, selectOutEA_eq_table, selectOutAB_eq_table]
    simp [selectOutTable, hp, hO, flattened]

/-- Witness for C24: `selectOut` with a packed `char4` operand and an 8-bit output
gives the same outcome for shift counts 0 and 7, the `flattened` call with shift
count 2. -/
theorem selectOut_ignores_shiftCount_witness :
    selectOutA conformsAlways .char4 0 (denseVector .real8I 8) 1 (denseVector .real8U 8) [] 0
      = selectOutA conformsAlways .char4 0 (denseVector .real8I 8) 1 (denseVector .real8U 8)
          [] 7 ∧
    selectOutA conformsAlways .char4 0 (denseVector .real8I 8) 1 (denseVector .real8U 8) [] 0
      = flattenedA (conformsAlways.inst .char4 .uchar4) 0 (denseVector .real8I 8) 1
          (denseVector .real8U 8) [] (shiftOf (denseVector .real8U 8).type) :=
  ⟨(selectOut_ignores_shiftCount conformsAlways .char4 0 0 0 1 (denseVector .real8I 8)
      (denseVector .real8I 8) (denseVector .real8U 8) [] 0 7).1,
   ((selectOut_ignores_shiftCount conformsAlways .char4 0 0 0 1 (denseVector .real8I 8)
      (denseVector .real8I 8) (denseVector .real8U 8) [] 0 7).2.2.2.2.1 rfl .uchar4 rfl).1⟩

end SwiftRT
